import Mathlib

/-!
The capture manager and its workers

A shallow embedding of `ScreenRecorderLibNative/ScreenCaptureManager.cpp`:
the capture manager (frame acquisition, teardown, source lookup, shared
surface creation) and the capture worker procedure `CaptureThreadProc`
(initialisation, capture loop, exit classification).

Calls into collaborators that live outside this file (the keyed mutex, the
D3D device, the overlay manager, the capture backends, the performance
counter) are represented by the result they hand back, supplied as an
explicit environment value.
-/

namespace ScreenRecorderLib

/-! ## Result codes -/

/-- A Windows result code, a signed 32 bit integer. -/
abbrev HRESULT := Int

def S_OK : HRESULT := 0
def S_FALSE : HRESULT := 1
/-- The wait status 0x102 that `AcquireSync` hands back when the wait times out. -/
def WAIT_TIMEOUT : HRESULT := 0x102
def E_ABORT : HRESULT := 0x80004004 - 0x100000000
def E_FAIL : HRESULT := 0x80004005 - 0x100000000
def E_ACCESSDENIED : HRESULT := 0x80070005 - 0x100000000
def E_OUTOFMEMORY : HRESULT := 0x8007000E - 0x100000000
def DXGI_ERROR_DEVICE_REMOVED : HRESULT := 0x887A0005 - 0x100000000
def DXGI_ERROR_DEVICE_RESET : HRESULT := 0x887A0007 - 0x100000000
def DXGI_ERROR_NOT_CURRENTLY_AVAILABLE : HRESULT := 0x887A0022 - 0x100000000
def DXGI_ERROR_MODE_CHANGE_IN_PROGRESS : HRESULT := 0x887A0025 - 0x100000000
def DXGI_ERROR_ACCESS_LOST : HRESULT := 0x887A0026 - 0x100000000
def DXGI_ERROR_WAIT_TIMEOUT : HRESULT := 0x887A0027 - 0x100000000
def DXGI_ERROR_SESSION_DISCONNECTED : HRESULT := 0x887A0028 - 0x100000000

/-- The `FAILED` test: the sign bit of the result code is set. -/
def FAILED (hr : HRESULT) : Bool := decide (hr < 0)

/-- Reinterpretation of an integer as a signed 32 bit value (two's complement). -/
def wrapInt32 (x : Int) : Int := (x + 0x80000000) % 0x100000000 - 0x80000000

/-! ## Worker exit: classification of the terminal result -/

/-- What the code after the `Exit:` label of `CaptureThreadProc` leaves behind:
the stored `ThreadResult` and which of the two error events were set. -/
structure WorkerExit where
  ThreadResult : HRESULT
  ExpectedErrorEventSet : Bool
  UnexpectedErrorEventSet : Bool
  deriving DecidableEq, Repr

/-- The `switch (hr)` under `if (FAILED(hr))`: the pair
`(isExpectedError, isUnexpectedError)`. Both flags start out `false`. -/
def classifyThreadResult (hr : HRESULT) : Bool × Bool :=
  if FAILED hr then
    if hr = DXGI_ERROR_DEVICE_REMOVED ∨ hr = DXGI_ERROR_DEVICE_RESET then
      (false, true)
    else if hr = E_ACCESSDENIED ∨ hr = DXGI_ERROR_MODE_CHANGE_IN_PROGRESS
        ∨ hr = DXGI_ERROR_SESSION_DISCONNECTED ∨ hr = DXGI_ERROR_ACCESS_LOST then
      (true, false)
    else if hr = DXGI_ERROR_NOT_CURRENTLY_AVAILABLE then
      (false, true)
    else if hr = E_ABORT then
      (false, false)
    else
      (false, true)
  else
    (false, false)

/-- The code from the `Exit:` label to the end of `CaptureThreadProc`:
store the result, classify it, and set at most one event
(`if (isExpectedError) ... else if (isUnexpectedError) ...`). -/
def CaptureThreadExit (hr : HRESULT) : WorkerExit :=
  let flags := classifyThreadResult hr
  let isExpectedError := flags.1
  let isUnexpectedError := flags.2
  if isExpectedError then
    { ThreadResult := hr, ExpectedErrorEventSet := true, UnexpectedErrorEventSet := false }
  else if isUnexpectedError then
    { ThreadResult := hr, ExpectedErrorEventSet := false, UnexpectedErrorEventSet := true }
  else
    { ThreadResult := hr, ExpectedErrorEventSet := false, UnexpectedErrorEventSet := false }

/-! ## Data model -/

/-- A kernel object handle; `0` is the null handle. -/
abbrev HANDLE := Nat

structure RECT where
  left : Int
  top : Int
  right : Int
  bottom : Int
  deriving DecidableEq, Repr

structure SIZE where
  cx : Int
  cy : Int
  deriving DecidableEq, Repr

def RectWidth (rc : RECT) : Int := rc.right - rc.left

def RectHeight (rc : RECT) : Int := rc.bottom - rc.top

/-- The Win32 point-in-rectangle test: the left and top edges are inside,
the right and bottom edges are outside. -/
def PtInRect (rc : RECT) (x y : Int) : Bool :=
  decide (rc.left ≤ x) && decide (x < rc.right) && decide (rc.top ≤ y) && decide (y < rc.bottom)

/-- The source kinds tested by the `switch` in `CaptureThreadProc`; `Other`
stands for any value that reaches its `default:` label. -/
inductive RecordingSourceType where
  | CameraCapture
  | Display
  | Picture
  | Video
  | Window
  | Other
  deriving DecidableEq, Repr

/-- The capture API hint of a display source; `Other` stands for any value
that equals neither of the two enumerators compared against. -/
inductive RecordingSourceApi where
  | DesktopDuplication
  | WindowsGraphicsCapture
  | Other
  deriving DecidableEq, Repr

/-- A source descriptor as supplied by the caller (the fields this file reads). -/
structure RECORDING_SOURCE where
  Type_ : RecordingSourceType
  SourceApi : RecordingSourceApi
  IsCursorCaptureEnabled : Option Bool
  deriving DecidableEq, Repr

/-- The per-source record built by `CreateSharedSurf` from a descriptor. -/
structure RECORDING_SOURCE_DATA where
  Type_ : RecordingSourceType
  SourceApi : RecordingSourceApi
  IsCursorCaptureEnabled : Option Bool
  OffsetX : Int
  OffsetY : Int
  FrameCoordinates : RECT
  deriving DecidableEq, Repr

/-- One element of `m_CaptureThreadData`. The event handles, the shared
surface handle and the `PtrInfo` pointer stored next to these fields are
copies of the manager's own and are not repeated here. The two counters are
declared outside this file; they are kept as integers and incremented without
wrap-around, while the `int` total computed from them in
`GetUpdatedFrameCount` wraps at 32 bits. -/
structure CAPTURE_THREAD_DATA where
  RecordingSource : Option RECORDING_SOURCE_DATA
  LastUpdateTimeStamp : Int
  UpdatedFrameCountSinceLastWrite : Int
  TotalUpdatedFrameCount : Int
  ThreadResult : HRESULT
  deriving DecidableEq, Repr

/-- The pointer state; `PtrShapeBuffer` is `none` for a null pointer. -/
structure PTR_INFO where
  PtrShapeBuffer : Option Nat
  BufferSize : Nat
  Visible : Bool
  PositionX : Int
  PositionY : Int
  deriving DecidableEq, Repr

/-- The result of `RtlZeroMemory(&m_PtrInfo, sizeof(m_PtrInfo))`. -/
def PTR_INFO.zero : PTR_INFO :=
  { PtrShapeBuffer := none, BufferSize := 0, Visible := false, PositionX := 0, PositionY := 0 }

/-- The description of the shared texture created by `CreateSharedSurf`. -/
structure SharedTexture where
  Width : Int
  Height : Int
  deriving DecidableEq, Repr

/-- The members of the manager object that this file reads and writes.
A null pointer member is `none` (or `false` for `m_KeyMutex`). -/
structure ScreenCaptureManager where
  m_TerminateThreadsEvent : HANDLE
  m_LastAcquiredFrameTimeStamp : Int
  m_OutputRect : RECT
  m_SharedSurf : Option SharedTexture
  m_KeyMutex : Bool
  m_PtrInfo : PTR_INFO
  m_CaptureThreadCount : Nat
  m_CaptureThreadHandles : Option (List HANDLE)
  m_CaptureThreadData : Option (List CAPTURE_THREAD_DATA)
  m_IsCapturing : Bool
  deriving DecidableEq, Repr

/-- What `AcquireNextFrame` writes into `*pFrame` (the two counts; the texture
copy and the pointer to `m_PtrInfo` carry no further information here). -/
structure CAPTURED_FRAME where
  FrameUpdateCount : Int
  OverlayUpdateCount : Int
  deriving DecidableEq, Repr

namespace ScreenCaptureManager

/-- The state the constructor leaves, given the handle `CreateEvent` returned. -/
def new (terminateEvent : HANDLE) : ScreenCaptureManager :=
  { m_TerminateThreadsEvent := terminateEvent
    m_LastAcquiredFrameTimeStamp := 0
    m_OutputRect := ⟨0, 0, 0, 0⟩
    m_SharedSurf := none
    m_KeyMutex := false
    m_PtrInfo := PTR_INFO.zero
    m_CaptureThreadCount := 0
    m_CaptureThreadHandles := none
    m_CaptureThreadData := none
    m_IsCapturing := false }

/-- The elements `m_CaptureThreadData[0 .. m_CaptureThreadCount)` that the
loops `for (i = 0; i < m_CaptureThreadCount; ++i)` visit. -/
def threadData (s : ScreenCaptureManager) : List CAPTURE_THREAD_DATA :=
  (s.m_CaptureThreadData.getD []).take s.m_CaptureThreadCount

/-- Write back the visited elements, leaving the rest of the array alone. -/
def setThreadData (s : ScreenCaptureManager) (ds : List CAPTURE_THREAD_DATA) :
    ScreenCaptureManager :=
  { s with m_CaptureThreadData :=
      s.m_CaptureThreadData.map (fun arr => ds ++ arr.drop s.m_CaptureThreadCount) }

/-- Loop of `IsUpdatedFramesAvailable`. -/
def IsUpdatedFramesAvailable.loop (last : Int) : List CAPTURE_THREAD_DATA → Bool
  | [] => false
  | d :: rest =>
    if d.LastUpdateTimeStamp > last then true
    else IsUpdatedFramesAvailable.loop last rest

def IsUpdatedFramesAvailable (s : ScreenCaptureManager) : Bool :=
  IsUpdatedFramesAvailable.loop s.m_LastAcquiredFrameTimeStamp s.threadData

/-- Loop of `IsInitialFrameWriteComplete`. -/
def IsInitialFrameWriteComplete.loop : List CAPTURE_THREAD_DATA → Bool
  | [] => true
  | d :: rest =>
    if d.RecordingSource.isSome then
      if d.TotalUpdatedFrameCount = 0 then false
      else IsInitialFrameWriteComplete.loop rest
    else IsInitialFrameWriteComplete.loop rest

def IsInitialFrameWriteComplete (s : ScreenCaptureManager) : Bool :=
  IsInitialFrameWriteComplete.loop s.threadData

/-- Loop of `GetUpdatedFrameCount`: the running `int updatedFrameCount` and the
elements as the loop leaves them. -/
def GetUpdatedFrameCount.loop (last : Int) (resetUpdatedFrameCounts : Bool) :
    Int → List CAPTURE_THREAD_DATA → Int × List CAPTURE_THREAD_DATA
  | updatedFrameCount, [] => (updatedFrameCount, [])
  | updatedFrameCount, d :: rest =>
    if d.LastUpdateTimeStamp > last then
      let updatedFrameCount := wrapInt32 (updatedFrameCount + d.UpdatedFrameCountSinceLastWrite)
      let d := if resetUpdatedFrameCounts then
        { d with UpdatedFrameCountSinceLastWrite := 0 } else d
      let r := GetUpdatedFrameCount.loop last resetUpdatedFrameCounts updatedFrameCount rest
      (r.1, d :: r.2)
    else
      let r := GetUpdatedFrameCount.loop last resetUpdatedFrameCounts updatedFrameCount rest
      (r.1, d :: r.2)

/-- `GetUpdatedFrameCount`: the count returned and the manager afterwards. -/
def GetUpdatedFrameCount (s : ScreenCaptureManager) (resetUpdatedFrameCounts : Bool) :
    Int × ScreenCaptureManager :=
  let r := GetUpdatedFrameCount.loop s.m_LastAcquiredFrameTimeStamp resetUpdatedFrameCounts
    0 s.threadData
  (r.1, s.setThreadData r.2)

end ScreenCaptureManager

/-- The collaborators consulted by one call of `AcquireNextFrame`, each
represented by what it returns during that call. -/
structure AcquireEnv where
  /-- The result of `m_KeyMutex->AcquireSync(key, timeoutMillis)`. -/
  AcquireSync : Nat → Nat → HRESULT
  /-- The result of `m_OverlayManager->IsUpdatedFramesAvailable()`. -/
  OverlayUpdatedFramesAvailable : Bool
  /-- The result of `m_Device->CreateTexture2D`. -/
  CreateTexture2D : HRESULT
  /-- The count `ProcessOverlays` writes to `updatedOverlaysCount`. -/
  UpdatedOverlaysCount : Int
  /-- The value `QueryPerformanceCounter` would store. -/
  PerformanceCounter : Int

/-- The outcome of one call of `AcquireNextFrame`. `frame` is `some` exactly
when `*pFrame` was populated; `releasedKey` is the key passed to `ReleaseSync`
by the scope guard, `none` when the guard was never constructed. -/
structure AcquireResult where
  hr : HRESULT
  frame : Option CAPTURED_FRAME
  releasedKey : Option Nat
  state : ScreenCaptureManager

namespace ScreenCaptureManager

/-- `AcquireNextFrame(timeoutMillis, pFrame)`. The call dereferences
`m_KeyMutex` and `m_SharedSurf`, which `StartCapture` has set. -/
def AcquireNextFrame (s : ScreenCaptureManager) (env : AcquireEnv) (timeoutMillis : Nat) :
    AcquireResult :=
  let hr := env.AcquireSync 1 timeoutMillis
  if hr = WAIT_TIMEOUT then
    { hr := DXGI_ERROR_WAIT_TIMEOUT, frame := none, releasedKey := none, state := s }
  else if FAILED hr then
    { hr := hr, frame := none, releasedKey := none, state := s }
  else
    let haveNewFrameData :=
      (s.IsUpdatedFramesAvailable || env.OverlayUpdatedFramesAvailable)
        && s.IsInitialFrameWriteComplete
    if !haveNewFrameData then
      { hr := DXGI_ERROR_WAIT_TIMEOUT, frame := none, releasedKey := some 0, state := s }
    else
      let counted := s.GetUpdatedFrameCount true
      let updatedFrameCount := counted.1
      let s1 := counted.2
      let hr := env.CreateTexture2D
      if FAILED hr then
        { hr := hr, frame := none, releasedKey := some 0, state := s1 }
      else
        let updatedOverlaysCount := env.UpdatedOverlaysCount
        let s2 :=
          if updatedFrameCount > 0 ∨ updatedOverlaysCount > 0 then
            { s1 with m_LastAcquiredFrameTimeStamp := env.PerformanceCounter }
          else s1
        { hr := hr
          frame := some { FrameUpdateCount := updatedFrameCount
                          OverlayUpdateCount := updatedOverlaysCount }
          releasedKey := some 0
          state := s2 }

end ScreenCaptureManager

/-! ## Teardown -/

/-- The release operations `Clean` performs, in the order performed. A worker
thread handle and a source record are identified by the array slot that owns
them. -/
inductive ReleaseAction where
  /-- The call `m_SharedSurf->Release()`. -/
  | ReleaseSharedSurf
  /-- The call `m_KeyMutex->Release()`. -/
  | ReleaseKeyMutex
  /-- The statement `delete[] m_PtrInfo.PtrShapeBuffer`. -/
  | DeletePtrShapeBuffer
  /-- The call `CloseHandle(m_CaptureThreadHandles[i])`. -/
  | CloseThreadHandle (i : Nat) (h : HANDLE)
  /-- The statement `delete[] m_CaptureThreadHandles`. -/
  | DeleteThreadHandleArray
  /-- The call `CleanDx(&m_CaptureThreadData[i].RecordingSource->DxRes)`. -/
  | CleanDx (i : Nat)
  /-- The statement `delete m_CaptureThreadData[i].RecordingSource`. -/
  | DeleteRecordingSource (i : Nat)
  /-- The statement `delete[] m_CaptureThreadData`. -/
  | DeleteThreadDataArray
  /-- The call `CloseHandle(m_TerminateThreadsEvent)`. -/
  | CloseTerminateThreadsEvent (h : HANDLE)
  deriving DecidableEq, Repr

/-- The releases of session resources: everything except the close of the
termination event. -/
def ReleaseAction.isSessionResource : ReleaseAction → Bool
  | .CloseTerminateThreadsEvent _ => false
  | _ => true

namespace ScreenCaptureManager

/-- The loop over `m_CaptureThreadHandles` in `Clean`. -/
def Clean.closeThreadHandles (count : Nat) (handles : List HANDLE) : List ReleaseAction :=
  (List.range count).filterMap fun i =>
    match handles[i]? with
    | some h => if h ≠ 0 then some (ReleaseAction.CloseThreadHandle i h) else none
    | none => none

/-- The loop over `m_CaptureThreadData` in `Clean`. -/
def Clean.deleteRecordingSources (count : Nat) (data : List CAPTURE_THREAD_DATA) :
    List ReleaseAction :=
  (List.range count).flatMap fun i =>
    match data[i]? with
    | some d =>
      if d.RecordingSource.isSome then
        [ReleaseAction.CleanDx i, ReleaseAction.DeleteRecordingSource i]
      else []
    | none => []

/-- `Clean`: the manager afterwards and the release operations performed. -/
def Clean (s : ScreenCaptureManager) : ScreenCaptureManager × List ReleaseAction :=
  let surf := if s.m_SharedSurf.isSome then [ReleaseAction.ReleaseSharedSurf] else []
  let mutex := if s.m_KeyMutex then [ReleaseAction.ReleaseKeyMutex] else []
  let shape :=
    if s.m_PtrInfo.PtrShapeBuffer.isSome then [ReleaseAction.DeletePtrShapeBuffer] else []
  let handles :=
    match s.m_CaptureThreadHandles with
    | some hs =>
      Clean.closeThreadHandles s.m_CaptureThreadCount hs ++ [ReleaseAction.DeleteThreadHandleArray]
    | none => []
  let data :=
    match s.m_CaptureThreadData with
    | some ds =>
      Clean.deleteRecordingSources s.m_CaptureThreadCount ds
        ++ [ReleaseAction.DeleteThreadDataArray]
    | none => []
  ({ s with
      m_SharedSurf := none
      m_KeyMutex := false
      m_PtrInfo := PTR_INFO.zero
      m_CaptureThreadHandles := none
      m_CaptureThreadData := none
      m_CaptureThreadCount := 0 },
   surf ++ mutex ++ shape ++ handles ++ data
     ++ [ReleaseAction.CloseTerminateThreadsEvent s.m_TerminateThreadsEvent])

/-! ### Source lookup -/

/-- Loop of `GetCaptureDataForRect`, started at index `i`: the index of the
element whose address is returned, `none` for `nullptr`. -/
def GetCaptureDataForRect.loop (x y : Int) : Nat → List CAPTURE_THREAD_DATA → Option Nat
  | _, [] => none
  | i, d :: rest =>
    match d.RecordingSource with
    | some src =>
      if PtInRect src.FrameCoordinates x y then some i
      else GetCaptureDataForRect.loop x y (i + 1) rest
    | none => GetCaptureDataForRect.loop x y (i + 1) rest

def GetCaptureDataForRect (s : ScreenCaptureManager) (rect : RECT) : Option Nat :=
  GetCaptureDataForRect.loop rect.left rect.top 0 s.threadData

end ScreenCaptureManager

/-! ## Shared surface creation -/

/-- The helpers `CreateSharedSurf` calls that are defined outside this file,
and the device calls made while creating the texture. -/
structure GeometryEnv where
  /-- The result code and the list `validOutputs` it fills. -/
  GetOutputRectsForRecordingSources :
    List RECORDING_SOURCE → HRESULT × List (RECORDING_SOURCE × RECT)
  /-- Given the rectangles and the current content of its in/out rectangle
  argument, the content it leaves there and the offsets it fills. -/
  GetCombinedRects : List RECT → RECT → RECT × List SIZE
  /-- The rectangle `MakeRectEven` returns for its argument. -/
  MakeRectEven : RECT → RECT
  /-- The constructor `RECORDING_SOURCE_DATA(source)`. -/
  NewRecordingSourceData : RECORDING_SOURCE → RECORDING_SOURCE_DATA
  /-- The result of `m_Device->CreateTexture2D` for the shared texture. -/
  CreateTexture2D : HRESULT
  /-- The result of `QueryInterface` for the keyed mutex. -/
  QueryInterfaceKeyedMutex : HRESULT

/-- The outcome of `CreateSharedSurf(sources, pCreatedOutputs, pDeskBounds)`.
`DeskBounds` is the content of the caller's rectangle, the one `pDeskBounds`
pointed to on entry, when the call returns; `SurfaceRect` is the rectangle the
texture was sized from, when control got that far. -/
structure CreateSharedSurfResult where
  hr : HRESULT
  CreatedOutputs : List RECORDING_SOURCE_DATA
  DeskBounds : RECT
  SurfaceRect : Option RECT
  state : ScreenCaptureManager

namespace ScreenCaptureManager

/-- The overload `CreateSharedSurf(desktopRect, &m_SharedSurf, &m_KeyMutex)`. -/
def CreateSharedSurf.forRect (s : ScreenCaptureManager) (env : GeometryEnv)
    (desktopRect : RECT) : HRESULT × ScreenCaptureManager :=
  let hr := env.CreateTexture2D
  if FAILED hr then (hr, s)
  else
    let hr := env.QueryInterfaceKeyedMutex
    if FAILED hr then (hr, s)
    else
      (hr, { s with
              m_SharedSurf := some { Width := RectWidth desktopRect
                                     Height := RectHeight desktopRect }
              m_KeyMutex := true })

/-- The loop of `CreateSharedSurf` that builds one record per valid output,
started at index `i`. `bounds` is the rectangle the local `pDeskBounds` points
to; `none` stands for the exception `outputOffsets.at(i)` throws when the
index is out of range. -/
def CreateSharedSurf.build (env : GeometryEnv) (bounds : RECT) (outputOffsets : List SIZE) :
    Nat → List (RECORDING_SOURCE × RECT) → Option (List RECORDING_SOURCE_DATA)
  | _, [] => some []
  | i, (source, sourceRect) :: rest =>
    let data := env.NewRecordingSourceData source
    let data :=
      if source.Type_ = RecordingSourceType.Display then
        { data with OffsetX := data.OffsetX - bounds.left, OffsetY := data.OffsetY - bounds.top }
      else data
    match outputOffsets[i]? with
    | none => none
    | some off =>
      let data :=
        { data with
            OffsetX := data.OffsetX - off.cx
            OffsetY := data.OffsetY - off.cy
            FrameCoordinates := sourceRect }
      match CreateSharedSurf.build env bounds outputOffsets (i + 1) rest with
      | none => none
      | some created => some (data :: created)

/-- `CreateSharedSurf(sources, pCreatedOutputs, pDeskBounds)`, with
`deskBoundsIn` the content of `*pDeskBounds` on entry. The statement
`pDeskBounds = &MakeRectEven(*pDeskBounds)` assigns the local pointer: from
there on the function reads the rectangle `MakeRectEven` returned, and the
caller's rectangle keeps what `GetCombinedRects` left in it. -/
def CreateSharedSurf (s : ScreenCaptureManager) (env : GeometryEnv)
    (sources : List RECORDING_SOURCE) (deskBoundsIn : RECT) : Option CreateSharedSurfResult :=
  let resolved := env.GetOutputRectsForRecordingSources sources
  let hr := resolved.1
  let validOutputs := resolved.2
  if FAILED hr then
    some { hr := hr, CreatedOutputs := [], DeskBounds := deskBoundsIn, SurfaceRect := none,
           state := s }
  else
    let outputRects := validOutputs.map Prod.snd
    let combined := env.GetCombinedRects outputRects deskBoundsIn
    let callerBounds := combined.1
    let outputOffsets := combined.2
    let localBounds := env.MakeRectEven callerBounds
    match CreateSharedSurf.build env localBounds outputOffsets 0 validOutputs with
    | none => none
    | some created =>
      let r := CreateSharedSurf.forRect s env localBounds
      some { hr := r.1, CreatedOutputs := created, DeskBounds := callerBounds,
             SurfaceRect := some localBounds, state := r.2 }

end ScreenCaptureManager

/-- What `StartCapture` consults besides the geometry helpers. -/
structure StartEnv where
  geometry : GeometryEnv
  /-- Whether `new (std::nothrow) HANDLE[n]` returned an array. -/
  HandlesAllocated : Bool
  /-- Whether `new (std::nothrow) CAPTURE_THREAD_DATA[n]` returned an array. -/
  DataAllocated : Bool
  /-- A value-initialised `CAPTURE_THREAD_DATA`. -/
  NewThreadData : CAPTURE_THREAD_DATA
  /-- The result of `InitializeDx` for source `i`. -/
  InitializeDx : Nat → HRESULT
  /-- The handle `CreateThread` returns for source `i`. -/
  CreateThread : Nat → HANDLE

namespace ScreenCaptureManager

/-- The thread creation loop of `StartCapture`, started at index `i`. The
first component tells whether the loop ran to its end. -/
def StartCapture.spawn (env : StartEnv) :
    Nat → List RECORDING_SOURCE_DATA → HRESULT → List HANDLE → List CAPTURE_THREAD_DATA →
      Bool × HRESULT × List HANDLE × List CAPTURE_THREAD_DATA
  | _, [], hr, handles, data => (true, hr, handles, data)
  | i, src :: rest, _, handles, data =>
    let data := data.set i { (data.getD i env.NewThreadData) with RecordingSource := some src }
    let hr := env.InitializeDx i
    if FAILED hr then (false, hr, handles, data)
    else
      let handles := handles.set i (env.CreateThread i)
      if env.CreateThread i = 0 then (false, E_FAIL, handles, data)
      else StartCapture.spawn env (i + 1) rest hr handles data

/-- `StartCapture`: the result code and the manager afterwards; `none` when
`CreateSharedSurf` threw. -/
def StartCapture (s : ScreenCaptureManager) (env : StartEnv) (sources : List RECORDING_SOURCE) :
    Option (HRESULT × ScreenCaptureManager) :=
  match s.CreateSharedSurf env.geometry sources s.m_OutputRect with
  | none => none
  | some r =>
    let s := { r.state with m_OutputRect := r.DeskBounds }
    if FAILED r.hr then some (r.hr, s)
    else
      let count := r.CreatedOutputs.length
      let s := { s with
        m_CaptureThreadCount := count
        m_CaptureThreadHandles :=
          if env.HandlesAllocated then some (List.replicate count 0) else none
        m_CaptureThreadData :=
          if env.DataAllocated then some (List.replicate count env.NewThreadData) else none }
      if !env.HandlesAllocated || !env.DataAllocated then some (E_OUTOFMEMORY, s)
      else
        let spawned := StartCapture.spawn env 0 r.CreatedOutputs r.hr
          (List.replicate count 0) (List.replicate count env.NewThreadData)
        let s := { s with
          m_CaptureThreadHandles := some spawned.2.2.1
          m_CaptureThreadData := some spawned.2.2.2 }
        if spawned.1 then some (spawned.2.1, { s with m_IsCapturing := true })
        else some (spawned.2.1, s)

end ScreenCaptureManager

/-! ## The capture worker -/

/-- The concrete capture backends `CaptureThreadProc` can construct. -/
inductive CaptureBackend where
  | CameraCapture
  | DesktopDuplicationCapture (isCursorCaptureEnabled : Bool)
  | WindowsGraphicsCapture (isCursorCaptureEnabled : Bool)
  /-- The default constructed `WindowsGraphicsCapture` used for window sources. -/
  | WindowsGraphicsCaptureDefault
  | GifReader
  | ImageReader
  | VideoReader
  deriving DecidableEq, Repr

/-- What the worker meets before its loop. -/
structure WorkerInitEnv where
  /-- Whether the signature read from `SourcePath` is that of a GIF file. -/
  PictureIsGif : Bool
  /-- The result of `OpenSharedResource`. -/
  OpenSharedResource : HRESULT
  /-- The result of `QueryInterface` for the keyed mutex. -/
  QueryInterfaceKeyedMutex : HRESULT
  /-- The result of the backend's `Initialize`. -/
  InitializeBackend : HRESULT
  /-- The result of the backend's `StartCapture`. -/
  StartCaptureBackend : HRESULT

/-- What the worker meets during one pass through the loop body. A result
is consulted only if control reaches the call that produces it. -/
structure LoopIteration where
  /-- Whether the wait on `TerminateThreadsEvent` returned `WAIT_OBJECT_0`. -/
  TerminateSignalled : Bool
  /-- The result of the backend's `AcquireNextFrame(100, nullptr)`. -/
  AcquireNextFrame : HRESULT
  /-- The result of `KeyMutex->AcquireSync(0, 100)`. -/
  AcquireSync : HRESULT
  /-- The result of the backend's `GetMouse`. -/
  GetMouse : HRESULT
  /-- The result of the backend's `WriteNextFrameToSharedSurface`. -/
  WriteNextFrameToSharedSurface : HRESULT
  /-- The value `QueryPerformanceCounter` would store. -/
  PerformanceCounter : Int

/-- The outcome of `CaptureThreadProc`. -/
structure WorkerResult where
  /-- Whether control reached `while (true)`. -/
  EnteredCaptureLoop : Bool
  /-- The thread data at return, `ThreadResult` included. -/
  Data : CAPTURE_THREAD_DATA
  ExpectedErrorEventSet : Bool
  UnexpectedErrorEventSet : Bool
  deriving DecidableEq, Repr

/-- The `switch (pSource->Type)` that constructs the backend; `none` is a
null `pRecordingSource`. -/
def createRecordingSource (pSource : RECORDING_SOURCE_DATA) (pictureIsGif : Bool) :
    Option CaptureBackend :=
  match pSource.Type_ with
  | .CameraCapture => some .CameraCapture
  | .Display =>
    if pSource.SourceApi = RecordingSourceApi.DesktopDuplication then
      some (.DesktopDuplicationCapture (pSource.IsCursorCaptureEnabled.getD false))
    else if pSource.SourceApi = RecordingSourceApi.WindowsGraphicsCapture then
      some (.WindowsGraphicsCapture (pSource.IsCursorCaptureEnabled.getD false))
    else none
  | .Picture => if pictureIsGif then some .GifReader else some .ImageReader
  | .Video => some .VideoReader
  | .Window => some .WindowsGraphicsCaptureDefault
  | .Other => none

/-- The three statements that close a loop pass in which a frame was written:
both counters are incremented and the timestamp is taken. -/
def CAPTURE_THREAD_DATA.frameWritten (d : CAPTURE_THREAD_DATA) (now : Int) :
    CAPTURE_THREAD_DATA :=
  { d with
      UpdatedFrameCountSinceLastWrite := d.UpdatedFrameCountSinceLastWrite + 1
      TotalUpdatedFrameCount := d.TotalUpdatedFrameCount + 1
      LastUpdateTimeStamp := now }

/-- The main loop of `CaptureThreadProc`, run against the passes in `script`:
the result code at the `break` and the thread data, or `none` when the loop
is still running after the last scripted pass. The result of `GetMouse` is
logged and then overwritten by that of `WriteNextFrameToSharedSurface`. -/
def captureLoop : Bool → CAPTURE_THREAD_DATA → List LoopIteration →
    Option (HRESULT × CAPTURE_THREAD_DATA)
  | _, _, [] => none
  | WaitToProcessCurrentFrame, d, it :: script =>
    if it.TerminateSignalled then some (S_OK, d)
    else if !WaitToProcessCurrentFrame && it.AcquireNextFrame = DXGI_ERROR_WAIT_TIMEOUT then
      captureLoop WaitToProcessCurrentFrame d script
    else if !WaitToProcessCurrentFrame && FAILED it.AcquireNextFrame then
      some (it.AcquireNextFrame, d)
    else if it.AcquireSync = WAIT_TIMEOUT then
      captureLoop true d script
    else if FAILED it.AcquireSync then
      some (it.AcquireSync, d)
    else
      let hr := it.WriteNextFrameToSharedSurface
      if hr = DXGI_ERROR_WAIT_TIMEOUT then captureLoop false d script
      else if FAILED hr then some (hr, d)
      else if hr = S_FALSE then captureLoop false d script
      else captureLoop false (d.frameWritten it.PerformanceCounter) script

/-- The exit path shared by every way out of `CaptureThreadProc`. -/
def workerExit (enteredLoop : Bool) (d : CAPTURE_THREAD_DATA) (hr : HRESULT) : WorkerResult :=
  let ex := CaptureThreadExit hr
  { EnteredCaptureLoop := enteredLoop
    Data := { d with ThreadResult := ex.ThreadResult }
    ExpectedErrorEventSet := ex.ExpectedErrorEventSet
    UnexpectedErrorEventSet := ex.UnexpectedErrorEventSet }

/-- `CaptureThreadProc` for the thread data `pData` whose `RecordingSource`
points to `pSource`. `none` means the loop is still running after the last
scripted pass. -/
def CaptureThreadProc (pData : CAPTURE_THREAD_DATA) (pSource : RECORDING_SOURCE_DATA)
    (env : WorkerInitEnv) (script : List LoopIteration) : Option WorkerResult :=
  let hr := S_OK
  match createRecordingSource pSource env.PictureIsGif with
  | none => some (workerExit false pData hr)
  | some _ =>
    let hr := env.OpenSharedResource
    if FAILED hr then some (workerExit false pData hr)
    else
      let hr := env.QueryInterfaceKeyedMutex
      if FAILED hr then some (workerExit false pData hr)
      else
        let hr := env.InitializeBackend
        if FAILED hr then some (workerExit false pData hr)
        else
          let hr := env.StartCaptureBackend
          if FAILED hr then some (workerExit false pData hr)
          else
            match captureLoop false pData script with
            | none => none
            | some (hr, d) => some (workerExit true d hr)

/-! ## Sessions -/

/-- The events of a running session that touch the manager's bookkeeping. -/
inductive SessionEvent where
  /-- Worker `i` completes a loop pass in which it wrote a frame, reading the
  performance counter as `now`. -/
  | WorkerWrite (i : Nat) (now : Int)
  /-- The consumer calls `AcquireNextFrame`. -/
  | Acquire (env : AcquireEnv) (timeoutMillis : Nat)

/-- Apply `f` to element `i` of a list. -/
def updateAt {α : Type} (f : α → α) : Nat → List α → List α
  | _, [] => []
  | 0, a :: rest => f a :: rest
  | i + 1, a :: rest => a :: updateAt f i rest

/-- The manager after worker `i` recorded a written frame. -/
def workerWrite (s : ScreenCaptureManager) (i : Nat) (now : Int) : ScreenCaptureManager :=
  { s with m_CaptureThreadData :=
      s.m_CaptureThreadData.map (updateAt (fun d => d.frameWritten now) i) }

/-- Run the events in order: the manager afterwards and the outcomes of the
`AcquireNextFrame` calls, first call first. -/
def runSession : ScreenCaptureManager → List SessionEvent →
    ScreenCaptureManager × List AcquireResult
  | s, [] => (s, [])
  | s, .WorkerWrite i now :: rest => runSession (workerWrite s i now) rest
  | s, .Acquire env timeoutMillis :: rest =>
    let r := s.AcquireNextFrame env timeoutMillis
    let tail := runSession r.state rest
    (tail.1, r :: tail.2)

/-! ## Session bookkeeping -/

/-- The performance counter value an event reads. -/
def SessionEvent.time : SessionEvent → Int
  | .WorkerWrite _ now => now
  | .Acquire env _ => env.PerformanceCounter

/-- Whether texture creation succeeds in the event, trivially so for a write. -/
def SessionEvent.textureCreated : SessionEvent → Bool
  | .WorkerWrite _ _ => true
  | .Acquire env _ => !FAILED env.CreateTexture2D

/-- The performance counter never runs backwards along the events, starting
from the value `c`. -/
def monotoneFrom : Int → List SessionEvent → Prop
  | _, [] => True
  | c, e :: rest => c ≤ e.time ∧ monotoneFrom e.time rest

/-- The sum of the per-source counts of frames written since the last reset. -/
def pendingFrames (l : List CAPTURE_THREAD_DATA) : Int :=
  (l.map (fun d => d.UpdatedFrameCountSinceLastWrite)).sum

/-- The bookkeeping relation that writes and successful acquisitions keep:
no timestamp lies beyond the clock value `c`, the pending counts are
nonnegative and sum to at most `n`, and a source whose timestamp is newer than
the last acquired one has a pending frame. -/
structure Bookkeeping (s : ScreenCaptureManager) (c : Int) (n : Nat) : Prop where
  stamps : ∀ d ∈ s.threadData, d.LastUpdateTimeStamp ≤ c
  acquired : s.m_LastAcquiredFrameTimeStamp ≤ c
  nonneg : ∀ d ∈ s.threadData, 0 ≤ d.UpdatedFrameCountSinceLastWrite
  bounded : pendingFrames s.threadData ≤ n
  pending : ∀ d ∈ s.threadData,
    d.LastUpdateTimeStamp > s.m_LastAcquiredFrameTimeStamp →
      0 < d.UpdatedFrameCountSinceLastWrite

/-! ## Concrete sessions -/

/-- An environment for one `AcquireNextFrame` call in which every collaborator
returns the given value. -/
def acquireEnv (lock : HRESULT) (overlayUpdated : Bool) (createTexture : HRESULT)
    (updatedOverlays : Int) (now : Int) : AcquireEnv :=
  { AcquireSync := fun _ _ => lock
    OverlayUpdatedFramesAvailable := overlayUpdated
    CreateTexture2D := createTexture
    UpdatedOverlaysCount := updatedOverlays
    PerformanceCounter := now }

/-- A display source record covering `(0,0)-(100,100)`. -/
def displaySource : RECORDING_SOURCE_DATA :=
  { Type_ := RecordingSourceType.Display
    SourceApi := RecordingSourceApi.DesktopDuplication
    IsCursorCaptureEnabled := none
    OffsetX := 0
    OffsetY := 0
    FrameCoordinates := ⟨0, 0, 100, 100⟩ }

/-- A manager with a shared surface and the given thread data, one thread
handle per element, never acquired from. -/
def managerWith (data : List CAPTURE_THREAD_DATA) : ScreenCaptureManager :=
  { m_TerminateThreadsEvent := 7
    m_LastAcquiredFrameTimeStamp := 0
    m_OutputRect := ⟨0, 0, 100, 100⟩
    m_SharedSurf := some ⟨100, 100⟩
    m_KeyMutex := true
    m_PtrInfo := PTR_INFO.zero
    m_CaptureThreadCount := data.length
    m_CaptureThreadHandles := some ((List.range data.length).map (fun i => 100 + i))
    m_CaptureThreadData := some data
    m_IsCapturing := true }

/-- A session with one source whose worker has not written yet. -/
def startedSession : ScreenCaptureManager :=
  managerWith [⟨some displaySource, 0, 0, 0, S_OK⟩]

/-- A session with one source whose worker wrote one frame at time 10. -/
def sessionAfterOneWrite : ScreenCaptureManager :=
  managerWith [⟨some displaySource, 10, 1, 1, S_OK⟩]

/-- One write, then three `AcquireNextFrame` calls that all obtain the lock
with no overlay update: texture creation fails in the first and succeeds in
the other two. -/
def sessionWithFailedAcquire : List SessionEvent :=
  [ SessionEvent.WorkerWrite 0 10
  , SessionEvent.Acquire (acquireEnv S_OK false E_OUTOFMEMORY 0 20) 50
  , SessionEvent.Acquire (acquireEnv S_OK false S_OK 0 30) 50
  , SessionEvent.Acquire (acquireEnv S_OK false S_OK 0 40) 50 ]

/-- Thread data of two elements: the first carries no source record, the
second carries a source covering `(0,0)-(100,100)`. -/
def lookupManager : ScreenCaptureManager :=
  managerWith [⟨none, 0, 0, 0, S_OK⟩, ⟨some displaySource, 10, 1, 1, S_OK⟩]

/-- A display source record whose API hint equals neither enumerator. -/
def displaySourceWithoutApi : RECORDING_SOURCE_DATA :=
  { displaySource with SourceApi := RecordingSourceApi.Other }

/-- An initialisation environment in which every call succeeds. -/
def workerInitOk : WorkerInitEnv :=
  { PictureIsGif := false
    OpenSharedResource := S_OK
    QueryInterfaceKeyedMutex := S_OK
    InitializeBackend := S_OK
    StartCaptureBackend := S_OK }

/-- Modelled from the spec: `MakeRectEven` is defined outside this file; the
spec says the bounding rectangle is rounded so that width and height are even.
An odd extent is shortened by one here. -/
def MakeRectEven (rect : RECT) : RECT :=
  { rect with
      right := if RectWidth rect % 2 = 0 then rect.right else rect.right - 1
      bottom := if RectHeight rect % 2 = 0 then rect.bottom else rect.bottom - 1 }

/-- Modelled from the spec: `GetCombinedRects` is defined outside this file;
the spec gives its bounding output as the union bounding rectangle of the
resolved rectangles. -/
def unionBounds : List RECT → RECT
  | [] => ⟨0, 0, 0, 0⟩
  | rc :: rest =>
    rest.foldl
      (fun acc x =>
        ⟨min acc.left x.left, min acc.top x.top, max acc.right x.right, max acc.bottom x.bottom⟩)
      rc

/-- A display source descriptor. -/
def displayDescriptor : RECORDING_SOURCE :=
  { Type_ := RecordingSourceType.Display
    SourceApi := RecordingSourceApi.DesktopDuplication
    IsCursorCaptureEnabled := none }

/-- Geometry helpers for a session whose every source resolves to the
rectangle `(0,0)-(101,101)`: the bounding rectangle is the union, no source is
moved, and every device call succeeds. -/
def oddGeometry : GeometryEnv :=
  { GetOutputRectsForRecordingSources := fun sources =>
      (S_OK, sources.map (fun src => (src, ⟨0, 0, 101, 101⟩)))
    GetCombinedRects := fun rects _ => (unionBounds rects, rects.map (fun _ => ⟨0, 0⟩))
    MakeRectEven := MakeRectEven
    NewRecordingSourceData := fun src =>
      { Type_ := src.Type_
        SourceApi := src.SourceApi
        IsCursorCaptureEnabled := src.IsCursorCaptureEnabled
        OffsetX := 0
        OffsetY := 0
        FrameCoordinates := ⟨0, 0, 0, 0⟩ }
    CreateTexture2D := S_OK
    QueryInterfaceKeyedMutex := S_OK }

/-- A start environment over `oddGeometry` in which every allocation, device
initialisation and thread creation succeeds. -/
def oddStart : StartEnv :=
  { geometry := oddGeometry
    HandlesAllocated := true
    DataAllocated := true
    NewThreadData := ⟨none, 0, 0, 0, S_OK⟩
    InitializeDx := fun _ => S_OK
    CreateThread := fun i => 100 + i }

/-! ## Worker exit classification -/

theorem classifyThreadResult_not_both (hr : HRESULT) :
    ¬ ((classifyThreadResult hr).1 = true ∧ (classifyThreadResult hr).2 = true) := by
  unfold classifyThreadResult
  split_ifs <;> simp

theorem CaptureThreadExit_ThreadResult (hr : HRESULT) :
    (CaptureThreadExit hr).ThreadResult = hr := by
  unfold CaptureThreadExit
  dsimp only
  split_ifs <;> rfl

theorem workerExit_events (b : Bool) (d : CAPTURE_THREAD_DATA) (hr : HRESULT) :
    (workerExit b d hr).Data.ThreadResult = hr
      ∧ (workerExit b d hr).ExpectedErrorEventSet = (CaptureThreadExit hr).ExpectedErrorEventSet
      ∧ (workerExit b d hr).UnexpectedErrorEventSet
          = (CaptureThreadExit hr).UnexpectedErrorEventSet := by
  simp [workerExit, CaptureThreadExit_ThreadResult]

/-- Every way out of `CaptureThreadProc` goes through the exit path with the
result code that ends up in `ThreadResult`. -/
theorem CaptureThreadProc_exit (pData : CAPTURE_THREAD_DATA) (pSource : RECORDING_SOURCE_DATA)
    (env : WorkerInitEnv) (script : List LoopIteration) (r : WorkerResult)
    (h : CaptureThreadProc pData pSource env script = some r) :
    r.ExpectedErrorEventSet = (CaptureThreadExit r.Data.ThreadResult).ExpectedErrorEventSet
      ∧ r.UnexpectedErrorEventSet
          = (CaptureThreadExit r.Data.ThreadResult).UnexpectedErrorEventSet := by
  have key : ∀ b d hr, r = workerExit b d hr →
      r.ExpectedErrorEventSet = (CaptureThreadExit r.Data.ThreadResult).ExpectedErrorEventSet
      ∧ r.UnexpectedErrorEventSet
          = (CaptureThreadExit r.Data.ThreadResult).UnexpectedErrorEventSet := by
    intro b d hr e
    subst e
    obtain ⟨h1, h2, h3⟩ := workerExit_events b d hr
    rw [h1, h2, h3]
    exact ⟨rfl, rfl⟩
  unfold CaptureThreadProc at h
  dsimp only at h
  split at h
  · exact key _ _ _ (Option.some.inj h).symm
  · split_ifs at h
    · exact key _ _ _ (Option.some.inj h).symm
    · exact key _ _ _ (Option.some.inj h).symm
    · exact key _ _ _ (Option.some.inj h).symm
    · exact key _ _ _ (Option.some.inj h).symm
    · split at h
      · exact absurd h (by simp)
      · exact key _ _ _ (Option.some.inj h).symm

/-- Claim C2. The exit path of `CaptureThreadProc` classifies the terminal
result code: device removed, device reset, "not currently available" and every
failure code outside the listed ones set only the unexpected-error event;
access lost, access denied, mode change in progress and session disconnected
set only the expected-error event; `E_ABORT` and every success code set
neither; never are both events set. Every return of `CaptureThreadProc` sets
its events this way from the result code it stored in `ThreadResult`. -/
theorem C2_worker_exit_classification (hr : HRESULT) :
    ((hr = DXGI_ERROR_DEVICE_REMOVED ∨ hr = DXGI_ERROR_DEVICE_RESET
        ∨ hr = DXGI_ERROR_NOT_CURRENTLY_AVAILABLE) →
      CaptureThreadExit hr = ⟨hr, false, true⟩)
    ∧ ((FAILED hr = true ∧ hr ≠ DXGI_ERROR_DEVICE_REMOVED ∧ hr ≠ DXGI_ERROR_DEVICE_RESET
          ∧ hr ≠ DXGI_ERROR_NOT_CURRENTLY_AVAILABLE ∧ hr ≠ DXGI_ERROR_ACCESS_LOST
          ∧ hr ≠ E_ACCESSDENIED ∧ hr ≠ DXGI_ERROR_MODE_CHANGE_IN_PROGRESS
          ∧ hr ≠ DXGI_ERROR_SESSION_DISCONNECTED ∧ hr ≠ E_ABORT) →
      CaptureThreadExit hr = ⟨hr, false, true⟩)
    ∧ ((hr = DXGI_ERROR_ACCESS_LOST ∨ hr = E_ACCESSDENIED
          ∨ hr = DXGI_ERROR_MODE_CHANGE_IN_PROGRESS ∨ hr = DXGI_ERROR_SESSION_DISCONNECTED) →
      CaptureThreadExit hr = ⟨hr, true, false⟩)
    ∧ ((hr = E_ABORT ∨ FAILED hr = false) → CaptureThreadExit hr = ⟨hr, false, false⟩)
    ∧ ¬ ((CaptureThreadExit hr).ExpectedErrorEventSet = true
          ∧ (CaptureThreadExit hr).UnexpectedErrorEventSet = true)
    ∧ (∀ pData pSource env script r, CaptureThreadProc pData pSource env script = some r →
        r.Data.ThreadResult = hr →
        r.ExpectedErrorEventSet = (CaptureThreadExit hr).ExpectedErrorEventSet
          ∧ r.UnexpectedErrorEventSet = (CaptureThreadExit hr).UnexpectedErrorEventSet) := by
  refine ⟨?_, ?_, ?_, ?_, ?_, ?_⟩
  · rintro (h | h | h) <;> subst h <;> decide
  · rintro ⟨hf, h1, h2, h3, h4, h5, h6, h7, h8⟩
    simp [CaptureThreadExit, classifyThreadResult, hf, h1, h2, h3, h4, h5, h6, h7, h8]
  · rintro (h | h | h | h) <;> subst h <;> decide
  · rintro (h | h)
    · subst h; decide
    · simp [CaptureThreadExit, classifyThreadResult, h]
  · unfold CaptureThreadExit
    dsimp only
    split_ifs <;> simp
  · intro pData pSource env script r h e
    subst e
    exact CaptureThreadProc_exit pData pSource env script r h

/-- Claim C2 at the device-removed code. -/
theorem C2_worker_exit_classification_witness :
    CaptureThreadExit DXGI_ERROR_DEVICE_REMOVED = ⟨DXGI_ERROR_DEVICE_REMOVED, false, true⟩ :=
  (C2_worker_exit_classification DXGI_ERROR_DEVICE_REMOVED).1 (Or.inl rfl)

/-! ## Frame acquisition -/

theorem IsUpdatedFramesAvailable_loop_iff (last : Int) (l : List CAPTURE_THREAD_DATA) :
    ScreenCaptureManager.IsUpdatedFramesAvailable.loop last l = true
      ↔ ∃ d ∈ l, d.LastUpdateTimeStamp > last := by
  induction l with
  | nil => simp [ScreenCaptureManager.IsUpdatedFramesAvailable.loop]
  | cons d rest ih =>
    unfold ScreenCaptureManager.IsUpdatedFramesAvailable.loop
    by_cases h : d.LastUpdateTimeStamp > last
    · simp [h]
    · simp [h, ih]

theorem IsInitialFrameWriteComplete_loop_iff (l : List CAPTURE_THREAD_DATA) :
    ScreenCaptureManager.IsInitialFrameWriteComplete.loop l = true
      ↔ ∀ d ∈ l, d.RecordingSource.isSome = true → d.TotalUpdatedFrameCount ≠ 0 := by
  induction l with
  | nil => simp [ScreenCaptureManager.IsInitialFrameWriteComplete.loop]
  | cons d rest ih =>
    unfold ScreenCaptureManager.IsInitialFrameWriteComplete.loop
    by_cases h : d.RecordingSource.isSome = true
    · by_cases h0 : d.TotalUpdatedFrameCount = 0
      · simp [h, h0]
      · simp [h, h0, ih]
    · simp [h, ih]

theorem GetUpdatedFrameCount_timestamp (s : ScreenCaptureManager) (b : Bool) :
    (s.GetUpdatedFrameCount b).2.m_LastAcquiredFrameTimeStamp
      = s.m_LastAcquiredFrameTimeStamp := rfl

/-- When no visited element has a newer timestamp, the loop of
`GetUpdatedFrameCount` returns the running count it started with. -/
theorem GetUpdatedFrameCount_loop_none_newer (last : Int) (b : Bool) (acc : Int)
    (l : List CAPTURE_THREAD_DATA) (h : ∀ d ∈ l, ¬ d.LastUpdateTimeStamp > last) :
    (ScreenCaptureManager.GetUpdatedFrameCount.loop last b acc l).1 = acc := by
  induction l generalizing acc with
  | nil => simp [ScreenCaptureManager.GetUpdatedFrameCount.loop]
  | cons d rest ih =>
    unfold ScreenCaptureManager.GetUpdatedFrameCount.loop
    have hd := h d (List.mem_cons_self _ _)
    simp only [hd, if_false]
    exact ih acc (fun e he => h e (List.mem_cons_of_mem _ he))

theorem GetUpdatedFrameCount_pos (s : ScreenCaptureManager) (b : Bool)
    (h : 0 < (s.GetUpdatedFrameCount b).1) :
    ∃ d ∈ s.threadData, d.LastUpdateTimeStamp > s.m_LastAcquiredFrameTimeStamp := by
  by_contra hne
  have hall : ∀ d ∈ s.threadData, ¬ d.LastUpdateTimeStamp > s.m_LastAcquiredFrameTimeStamp :=
    fun d hd hts => hne ⟨d, hd, hts⟩
  have e : (s.GetUpdatedFrameCount b).1 = 0 :=
    GetUpdatedFrameCount_loop_none_newer _ b 0 _ hall
  omega

/-- The timestamp after a call of `AcquireNextFrame` differs from the one
before only if the call got past the gate, returned a frame that counts at
least one update, and stored the performance counter. -/
theorem AcquireNextFrame_timestamp_changed (s : ScreenCaptureManager) (env : AcquireEnv)
    (t : Nat)
    (h : (s.AcquireNextFrame env t).state.m_LastAcquiredFrameTimeStamp
      ≠ s.m_LastAcquiredFrameTimeStamp) :
    (s.IsUpdatedFramesAvailable = true ∨ env.OverlayUpdatedFramesAvailable = true)
      ∧ s.IsInitialFrameWriteComplete = true
      ∧ env.AcquireSync 1 t ≠ WAIT_TIMEOUT
      ∧ FAILED (env.AcquireSync 1 t) = false
      ∧ FAILED (s.AcquireNextFrame env t).hr = false
      ∧ (s.AcquireNextFrame env t).state.m_LastAcquiredFrameTimeStamp = env.PerformanceCounter
      ∧ ∃ f, (s.AcquireNextFrame env t).frame = some f
          ∧ (f.FrameUpdateCount > 0 ∨ f.OverlayUpdateCount > 0)
          ∧ f.FrameUpdateCount = (s.GetUpdatedFrameCount true).1
          ∧ f.OverlayUpdateCount = env.UpdatedOverlaysCount := by
  unfold ScreenCaptureManager.AcquireNextFrame at h ⊢
  dsimp only at h ⊢
  split_ifs at h ⊢ <;> simp_all [GetUpdatedFrameCount_timestamp]
  cases hb : s.IsUpdatedFramesAvailable <;> simp_all

/-- Claim C1. A source of the manager is an element of the thread data that
carries its source record, as `StartCapture` sets it up before the worker can
start. If some source has `TotalUpdatedFrameCount = 0`, then a call of
`AcquireNextFrame` whose `AcquireSync(1, timeout)` times out or succeeds
returns `DXGI_ERROR_WAIT_TIMEOUT` and no frame and leaves the manager
unchanged, for every timeout, every timestamp and every overlay flag. -/
theorem C1_initial_completeness_gate (s : ScreenCaptureManager) (env : AcquireEnv)
    (timeoutMillis : Nat)
    (hsrc : ∃ d ∈ s.threadData,
      d.RecordingSource.isSome = true ∧ d.TotalUpdatedFrameCount = 0)
    (hlock : env.AcquireSync 1 timeoutMillis = WAIT_TIMEOUT
      ∨ FAILED (env.AcquireSync 1 timeoutMillis) = false) :
    (s.AcquireNextFrame env timeoutMillis).hr = DXGI_ERROR_WAIT_TIMEOUT
      ∧ (s.AcquireNextFrame env timeoutMillis).frame = none
      ∧ (s.AcquireNextFrame env timeoutMillis).state = s := by
  have hgate : s.IsInitialFrameWriteComplete = false := by
    cases hc : s.IsInitialFrameWriteComplete with
    | false => rfl
    | true =>
      obtain ⟨d, hd, hsome, hzero⟩ := hsrc
      have := (IsInitialFrameWriteComplete_loop_iff s.threadData).1 hc d hd hsome
      exact absurd hzero this
  unfold ScreenCaptureManager.AcquireNextFrame
  dsimp only
  by_cases h1 : env.AcquireSync 1 timeoutMillis = WAIT_TIMEOUT
  · simp [h1]
  · have h2 : FAILED (env.AcquireSync 1 timeoutMillis) = false := by
      rcases hlock with h | h
      · exact absurd h h1
      · exact h
    simp [h1, h2, hgate]

/-- Claim C1 at a session whose only source has not written, with an overlay
update pending. -/
theorem C1_initial_completeness_gate_witness :
    (startedSession.AcquireNextFrame (acquireEnv S_OK true S_OK 1 20) 50).hr
        = DXGI_ERROR_WAIT_TIMEOUT
      ∧ (startedSession.AcquireNextFrame (acquireEnv S_OK true S_OK 1 20) 50).frame = none
      ∧ (startedSession.AcquireNextFrame (acquireEnv S_OK true S_OK 1 20) 50).state
          = startedSession :=
  C1_initial_completeness_gate startedSession (acquireEnv S_OK true S_OK 1 20) 50
    ⟨⟨some displaySource, 0, 0, 0, S_OK⟩, by decide, rfl, rfl⟩ (Or.inr (by decide))

/-- Claim C3. A call of `AcquireNextFrame` that changes
`m_LastAcquiredFrameTimeStamp` was made while some source's
`LastUpdateTimeStamp` was strictly greater than the previous value or the
overlay manager reported an update, be it through `IsUpdatedFramesAvailable`
or through the count of `ProcessOverlays`. The timestamp is unchanged after a lock
timeout, after a lock failure, after any call that returns a failure code or
`DXGI_ERROR_WAIT_TIMEOUT`, after any call that returns no frame, and after a
frame that counts neither a source update nor an overlay update. -/
theorem C3_timestamp_advances_only_on_fresh_data (s : ScreenCaptureManager)
    (env : AcquireEnv) (timeoutMillis : Nat) :
    ((s.AcquireNextFrame env timeoutMillis).state.m_LastAcquiredFrameTimeStamp
        ≠ s.m_LastAcquiredFrameTimeStamp →
      (∃ d ∈ s.threadData, d.LastUpdateTimeStamp > s.m_LastAcquiredFrameTimeStamp)
        ∨ env.OverlayUpdatedFramesAvailable = true)
    ∧ ((s.AcquireNextFrame env timeoutMillis).state.m_LastAcquiredFrameTimeStamp
        ≠ s.m_LastAcquiredFrameTimeStamp →
      (∃ d ∈ s.threadData, d.LastUpdateTimeStamp > s.m_LastAcquiredFrameTimeStamp)
        ∨ env.UpdatedOverlaysCount > 0)
    ∧ (env.AcquireSync 1 timeoutMillis = WAIT_TIMEOUT →
        (s.AcquireNextFrame env timeoutMillis).state.m_LastAcquiredFrameTimeStamp
          = s.m_LastAcquiredFrameTimeStamp)
    ∧ (FAILED (env.AcquireSync 1 timeoutMillis) = true →
        (s.AcquireNextFrame env timeoutMillis).state.m_LastAcquiredFrameTimeStamp
          = s.m_LastAcquiredFrameTimeStamp)
    ∧ ((s.AcquireNextFrame env timeoutMillis).hr = DXGI_ERROR_WAIT_TIMEOUT →
        (s.AcquireNextFrame env timeoutMillis).state.m_LastAcquiredFrameTimeStamp
          = s.m_LastAcquiredFrameTimeStamp)
    ∧ (FAILED (s.AcquireNextFrame env timeoutMillis).hr = true →
        (s.AcquireNextFrame env timeoutMillis).state.m_LastAcquiredFrameTimeStamp
          = s.m_LastAcquiredFrameTimeStamp)
    ∧ ((s.AcquireNextFrame env timeoutMillis).frame = none →
        (s.AcquireNextFrame env timeoutMillis).state.m_LastAcquiredFrameTimeStamp
          = s.m_LastAcquiredFrameTimeStamp)
    ∧ (∀ f, (s.AcquireNextFrame env timeoutMillis).frame = some f →
        f.FrameUpdateCount ≤ 0 → f.OverlayUpdateCount ≤ 0 →
        (s.AcquireNextFrame env timeoutMillis).state.m_LastAcquiredFrameTimeStamp
          = s.m_LastAcquiredFrameTimeStamp) := by
  refine ⟨?_, ?_, ?_, ?_, ?_, ?_, ?_, ?_⟩
  · intro h
    rcases (AcquireNextFrame_timestamp_changed s env timeoutMillis h).1 with hu | ho
    · exact Or.inl ((IsUpdatedFramesAvailable_loop_iff _ _).1 hu)
    · exact Or.inr ho
  · intro h
    obtain ⟨f, _, hpos, hf1, hf2⟩ :=
      (AcquireNextFrame_timestamp_changed s env timeoutMillis h).2.2.2.2.2.2
    rcases hpos with hp | hp
    · rw [hf1] at hp
      exact Or.inl (GetUpdatedFrameCount_pos s true hp)
    · rw [hf2] at hp
      exact Or.inr hp
  · intro h
    by_contra hne
    exact (AcquireNextFrame_timestamp_changed s env timeoutMillis hne).2.2.1 h
  · intro h
    by_contra hne
    have := (AcquireNextFrame_timestamp_changed s env timeoutMillis hne).2.2.2.1
    rw [h] at this
    exact Bool.noConfusion this
  · intro h
    by_contra hne
    have := (AcquireNextFrame_timestamp_changed s env timeoutMillis hne).2.2.2.2.1
    rw [h] at this
    exact absurd this (by decide)
  · intro h
    by_contra hne
    have := (AcquireNextFrame_timestamp_changed s env timeoutMillis hne).2.2.2.2.1
    rw [h] at this
    exact Bool.noConfusion this
  · intro h
    by_contra hne
    obtain ⟨f, hf, _⟩ := (AcquireNextFrame_timestamp_changed s env timeoutMillis hne).2.2.2.2.2.2
    rw [h] at hf
    exact Option.noConfusion hf
  · intro f hf h1 h2
    by_contra hne
    obtain ⟨g, hg, hpos, _, _⟩ :=
      (AcquireNextFrame_timestamp_changed s env timeoutMillis hne).2.2.2.2.2.2
    rw [hf] at hg
    cases Option.some.inj hg
    rcases hpos with hp | hp <;> omega

/-- Claim C3 at a call that does advance the timestamp: the only source wrote
at time 10, after the last acquired timestamp 0. -/
theorem C3_timestamp_advances_only_on_fresh_data_witness :
    (sessionAfterOneWrite.AcquireNextFrame (acquireEnv S_OK false S_OK 0 20)
        50).state.m_LastAcquiredFrameTimeStamp = 20
      ∧ ((∃ d ∈ sessionAfterOneWrite.threadData,
            d.LastUpdateTimeStamp > sessionAfterOneWrite.m_LastAcquiredFrameTimeStamp)
          ∨ (acquireEnv S_OK false S_OK 0 20).OverlayUpdatedFramesAvailable = true) :=
  ⟨by decide,
   (C3_timestamp_advances_only_on_fresh_data sessionAfterOneWrite
      (acquireEnv S_OK false S_OK 0 20) 50).1 (by decide)⟩

/-- Claim C4 at a session in which texture creation failed once. The worker
writes one frame at time 10. The first `AcquireNextFrame` resets the
source's count and then fails in `CreateTexture2D`. The second returns a
frame counting no update and leaves the timestamp at 0. The third, made with
no write and no overlay update in between, obtains the lock and returns a
frame again instead of `DXGI_ERROR_WAIT_TIMEOUT`. -/
theorem C4_frame_returned_again_without_new_write :
    (runSession startedSession sessionWithFailedAcquire).2.map
        (fun r => (r.hr, r.frame, r.state.m_LastAcquiredFrameTimeStamp))
      = [ (E_OUTOFMEMORY, none, 0)
        , (S_OK, some ⟨0, 0⟩, 0)
        , (S_OK, some ⟨0, 0⟩, 0) ]
    ∧ (workerWrite startedSession 0 10).threadData = [⟨some displaySource, 10, 1, 1, S_OK⟩]
    ∧ (runSession startedSession sessionWithFailedAcquire).1.threadData
        = [⟨some displaySource, 10, 0, 1, S_OK⟩] := by
  refine ⟨by decide, by decide, by decide⟩

/-! ## Teardown -/

theorem mem_closeThreadHandles (count : Nat) (hs : List HANDLE) (a : ReleaseAction) :
    a ∈ ScreenCaptureManager.Clean.closeThreadHandles count hs
      ↔ ∃ i, i < count ∧ ∃ h, hs[i]? = some h ∧ h ≠ 0 ∧ a = ReleaseAction.CloseThreadHandle i h := by
  unfold ScreenCaptureManager.Clean.closeThreadHandles
  simp only [List.mem_filterMap, List.mem_range]
  constructor
  · rintro ⟨i, hi, hf⟩
    refine ⟨i, hi, ?_⟩
    cases hg : hs[i]? with
    | none => simp [hg] at hf
    | some h =>
      simp only [hg] at hf
      by_cases h0 : h = 0
      · simp [h0] at hf
      · simp [h0] at hf
        exact ⟨h, rfl, h0, hf.symm⟩
  · rintro ⟨i, hi, h, hg, h0, rfl⟩
    exact ⟨i, hi, by simp [hg, h0]⟩

theorem mem_deleteRecordingSources (count : Nat) (ds : List CAPTURE_THREAD_DATA)
    (a : ReleaseAction) :
    a ∈ ScreenCaptureManager.Clean.deleteRecordingSources count ds
      ↔ ∃ i, i < count ∧ (∃ d, ds[i]? = some d ∧ d.RecordingSource.isSome = true)
          ∧ (a = ReleaseAction.CleanDx i ∨ a = ReleaseAction.DeleteRecordingSource i) := by
  unfold ScreenCaptureManager.Clean.deleteRecordingSources
  simp only [List.mem_flatMap, List.mem_range]
  constructor
  · rintro ⟨i, hi, hf⟩
    refine ⟨i, hi, ?_⟩
    cases hg : ds[i]? with
    | none => simp [hg] at hf
    | some d =>
      simp only [hg] at hf
      by_cases h0 : d.RecordingSource.isSome = true
      · simp [h0] at hf
        exact ⟨⟨d, rfl, h0⟩, hf⟩
      · simp [h0] at hf
  · rintro ⟨i, hi, ⟨d, hg, h0⟩, ha⟩
    refine ⟨i, hi, ?_⟩
    simp [hg, h0, ha]

theorem closeThreadHandles_nodup (count : Nat) (hs : List HANDLE) :
    (ScreenCaptureManager.Clean.closeThreadHandles count hs).Nodup := by
  unfold ScreenCaptureManager.Clean.closeThreadHandles
  refine List.Nodup.filterMap ?_ (List.nodup_range count)
  intro i j b hi hj
  cases hgi : hs[i]? with
  | none => simp [hgi] at hi
  | some x =>
    cases hgj : hs[j]? with
    | none => simp [hgj] at hj
    | some y =>
      simp only [hgi, hgj, Option.mem_def] at hi hj
      split_ifs at hi hj
      cases Option.some.inj hi
      cases Option.some.inj hj
      rfl

theorem deleteRecordingSources_nodup (count : Nat) (ds : List CAPTURE_THREAD_DATA) :
    (ScreenCaptureManager.Clean.deleteRecordingSources count ds).Nodup := by
  unfold ScreenCaptureManager.Clean.deleteRecordingSources
  rw [List.nodup_flatMap]
  constructor
  · intro i _
    cases hg : ds[i]? with
    | none => simp
    | some d =>
      by_cases h0 : d.RecordingSource.isSome = true <;> simp [h0]
  · refine List.Pairwise.imp_of_mem ?_ (List.nodup_range count)
    intro i j _ _ hij
    simp only [Function.onFun]
    rw [List.disjoint_left]
    intro a hai haj
    apply hij
    cases hgi : ds[i]? with
    | none => simp [hgi] at hai
    | some x =>
      cases hgj : ds[j]? with
      | none => simp [hgj] at haj
      | some y =>
        simp only [hgi, hgj] at hai haj
        split_ifs at hai haj
        · simp at hai haj
          rcases hai with rfl | rfl <;> rcases haj with h | h <;> cases h <;> rfl
        all_goals simp at hai haj

theorem Clean_state (s : ScreenCaptureManager) :
    (s.Clean).1 =
      { s with
        m_SharedSurf := none
        m_KeyMutex := false
        m_PtrInfo := PTR_INFO.zero
        m_CaptureThreadHandles := none
        m_CaptureThreadData := none
        m_CaptureThreadCount := 0 } := rfl

/-- A second `Clean` finds every guarded member null and performs only the
unguarded `CloseHandle(m_TerminateThreadsEvent)`. -/
theorem Clean_twice_actions (s : ScreenCaptureManager) :
    ((s.Clean).1.Clean).2
      = [ReleaseAction.CloseTerminateThreadsEvent s.m_TerminateThreadsEvent] := by
  simp [ScreenCaptureManager.Clean, PTR_INFO.zero]

theorem Clean_twice_state (s : ScreenCaptureManager) :
    ((s.Clean).1.Clean).1 = (s.Clean).1 := by
  simp [ScreenCaptureManager.Clean, PTR_INFO.zero]

theorem Clean_actions_nodup (s : ScreenCaptureManager) : (s.Clean).2.Nodup := by
  have hH : ∀ hs : Option (List HANDLE),
      (match hs with
        | some hs => ScreenCaptureManager.Clean.closeThreadHandles s.m_CaptureThreadCount hs
            ++ [ReleaseAction.DeleteThreadHandleArray]
        | none => []).Nodup
      ∧ ∀ a ∈ (match hs with
        | some hs => ScreenCaptureManager.Clean.closeThreadHandles s.m_CaptureThreadCount hs
            ++ [ReleaseAction.DeleteThreadHandleArray]
        | none => []),
        a = ReleaseAction.DeleteThreadHandleArray ∨ ∃ i h, a = ReleaseAction.CloseThreadHandle i h := by
    intro hs
    cases hs with
    | none => simp
    | some hs =>
      constructor
      · rw [List.nodup_append]
        refine ⟨closeThreadHandles_nodup _ _, List.nodup_singleton _, ?_⟩
        rw [List.disjoint_left]
        intro a ha hb
        rw [mem_closeThreadHandles] at ha
        obtain ⟨i, _, h, _, _, rfl⟩ := ha
        simp at hb
      · intro a ha
        rw [List.mem_append, mem_closeThreadHandles] at ha
        rcases ha with ⟨i, _, h, _, _, rfl⟩ | ha
        · exact Or.inr ⟨i, h, rfl⟩
        · exact Or.inl (List.mem_singleton.1 ha)
  have hD : ∀ ds : Option (List CAPTURE_THREAD_DATA),
      (match ds with
        | some ds => ScreenCaptureManager.Clean.deleteRecordingSources s.m_CaptureThreadCount ds
            ++ [ReleaseAction.DeleteThreadDataArray]
        | none => []).Nodup
      ∧ ∀ a ∈ (match ds with
        | some ds => ScreenCaptureManager.Clean.deleteRecordingSources s.m_CaptureThreadCount ds
            ++ [ReleaseAction.DeleteThreadDataArray]
        | none => []),
        a = ReleaseAction.DeleteThreadDataArray
          ∨ ∃ i, a = ReleaseAction.CleanDx i ∨ a = ReleaseAction.DeleteRecordingSource i := by
    intro ds
    cases ds with
    | none => simp
    | some ds =>
      constructor
      · rw [List.nodup_append]
        refine ⟨deleteRecordingSources_nodup _ _, List.nodup_singleton _, ?_⟩
        rw [List.disjoint_left]
        intro a ha hb
        rw [mem_deleteRecordingSources] at ha
        obtain ⟨i, _, _, rfl | rfl⟩ := ha <;> simp at hb
      · intro a ha
        rw [List.mem_append, mem_deleteRecordingSources] at ha
        rcases ha with ⟨i, _, _, h⟩ | ha
        · exact Or.inr ⟨i, h⟩
        · exact Or.inl (List.mem_singleton.1 ha)
  unfold ScreenCaptureManager.Clean
  dsimp only
  obtain ⟨hH1, hH2⟩ := hH s.m_CaptureThreadHandles
  obtain ⟨hD1, hD2⟩ := hD s.m_CaptureThreadData
  generalize (match s.m_CaptureThreadHandles with
        | some hs => ScreenCaptureManager.Clean.closeThreadHandles s.m_CaptureThreadCount hs
            ++ [ReleaseAction.DeleteThreadHandleArray]
        | none => []) = H at hH1 hH2 ⊢
  generalize (match s.m_CaptureThreadData with
        | some ds => ScreenCaptureManager.Clean.deleteRecordingSources s.m_CaptureThreadCount ds
            ++ [ReleaseAction.DeleteThreadDataArray]
        | none => []) = D at hD1 hD2 ⊢
  have hHD : ∀ a ∈ H, a ∉ D := by
    intro a ha hd
    rcases hH2 a ha with rfl | ⟨i, h, rfl⟩ <;>
      rcases hD2 _ hd with h | ⟨j, h | h⟩ <;> cases h
  have e1 : ReleaseAction.ReleaseSharedSurf ∉ H := fun h => by
    rcases hH2 _ h with h | ⟨i, x, h⟩ <;> cases h
  have e2 : ReleaseAction.ReleaseSharedSurf ∉ D := fun h => by
    rcases hD2 _ h with h | ⟨i, h | h⟩ <;> cases h
  have e3 : ReleaseAction.ReleaseKeyMutex ∉ H := fun h => by
    rcases hH2 _ h with h | ⟨i, x, h⟩ <;> cases h
  have e4 : ReleaseAction.ReleaseKeyMutex ∉ D := fun h => by
    rcases hD2 _ h with h | ⟨i, h | h⟩ <;> cases h
  have e5 : ReleaseAction.DeletePtrShapeBuffer ∉ H := fun h => by
    rcases hH2 _ h with h | ⟨i, x, h⟩ <;> cases h
  have e6 : ReleaseAction.DeletePtrShapeBuffer ∉ D := fun h => by
    rcases hD2 _ h with h | ⟨i, h | h⟩ <;> cases h
  have e7 : ReleaseAction.CloseTerminateThreadsEvent s.m_TerminateThreadsEvent ∉ H := fun h => by
    rcases hH2 _ h with h | ⟨i, x, h⟩ <;> cases h
  have e8 : ReleaseAction.CloseTerminateThreadsEvent s.m_TerminateThreadsEvent ∉ D := fun h => by
    rcases hD2 _ h with h | ⟨i, h | h⟩ <;> cases h
  cases s.m_SharedSurf.isSome <;> cases s.m_KeyMutex <;>
    cases s.m_PtrInfo.PtrShapeBuffer.isSome <;>
    simp [List.nodup_append, List.Disjoint, hH1, hD1, e1, e2, e3, e4, e5, e6, e7, e8] <;>
    exact ⟨fun a ha e => e8 (e ▸ ha), fun a ha => ⟨hHD a ha, fun e => e7 (e ▸ ha)⟩⟩

/-- Claim C6. Over two consecutive calls of `Clean`, the shared surface, the
keyed mutex, the pointer shape buffer, each worker thread handle, each source
record with its device resources, and the two arrays are each released at
most once, and the second call releases none of them. -/
theorem C6_clean_twice_no_double_free (s : ScreenCaptureManager) :
    (∀ a ∈ ((s.Clean).1.Clean).2, a.isSessionResource = false)
      ∧ (((s.Clean).2 ++ ((s.Clean).1.Clean).2).filter
          ReleaseAction.isSessionResource).Nodup := by
  rw [Clean_twice_actions]
  constructor
  · intro a ha
    rw [List.mem_singleton] at ha
    subst ha
    rfl
  · rw [List.filter_append]
    have h2 : [ReleaseAction.CloseTerminateThreadsEvent s.m_TerminateThreadsEvent].filter
        ReleaseAction.isSessionResource = [] := rfl
    rw [h2, List.append_nil]
    exact (Clean_actions_nodup s).filter _

/-- Claim C7 on the code: for every manager, the second of two consecutive
`Clean` calls leaves the state as the first left it but does perform a release,
`CloseHandle(m_TerminateThreadsEvent)`, on the handle the first call already
closed, so the termination event is closed twice over the two calls. -/
theorem C7_termination_event_closed_twice (s : ScreenCaptureManager) :
    ((s.Clean).1.Clean).2
        = [ReleaseAction.CloseTerminateThreadsEvent s.m_TerminateThreadsEvent]
      ∧ ((s.Clean).1.Clean).1 = (s.Clean).1
      ∧ (s.Clean).1.m_TerminateThreadsEvent = s.m_TerminateThreadsEvent
      ∧ ((s.Clean).2 ++ ((s.Clean).1.Clean).2).count
          (ReleaseAction.CloseTerminateThreadsEvent s.m_TerminateThreadsEvent) = 2 := by
  refine ⟨Clean_twice_actions s, Clean_twice_state s, rfl, ?_⟩
  rw [Clean_twice_actions, List.count_append]
  have h1 : (s.Clean).2.count
      (ReleaseAction.CloseTerminateThreadsEvent s.m_TerminateThreadsEvent) = 1 := by
    apply List.count_eq_one_of_mem (Clean_actions_nodup s)
    simp [ScreenCaptureManager.Clean]
  rw [h1]
  simp

/-! ## Source lookup -/

theorem PtInRect_iff (rc : RECT) (x y : Int) :
    PtInRect rc x y = true ↔ rc.left ≤ x ∧ x < rc.right ∧ rc.top ≤ y ∧ y < rc.bottom := by
  simp [PtInRect, and_assoc]

theorem GetCaptureDataForRect_loop_shift (x y : Int) (k : Nat) (l : List CAPTURE_THREAD_DATA) :
    ScreenCaptureManager.GetCaptureDataForRect.loop x y k l
      = (ScreenCaptureManager.GetCaptureDataForRect.loop x y 0 l).map (fun i => i + k) := by
  induction l generalizing k with
  | nil => simp [ScreenCaptureManager.GetCaptureDataForRect.loop]
  | cons d rest ih =>
    unfold ScreenCaptureManager.GetCaptureDataForRect.loop
    rw [ih (k + 1), ih (0 + 1)]
    cases d.RecordingSource with
    | none =>
      simp only [Option.map_map]
      congr 1
      funext i
      simp only [Function.comp]
      omega
    | some src =>
      dsimp only
      split_ifs
      · simp
      · simp only [Option.map_map]
        congr 1
        funext i
        simp only [Function.comp]
        omega

theorem GetCaptureDataForRect_loop_cons (x y : Int) (d : CAPTURE_THREAD_DATA)
    (rest : List CAPTURE_THREAD_DATA) :
    ScreenCaptureManager.GetCaptureDataForRect.loop x y 0 (d :: rest)
      = if (∃ src, d.RecordingSource = some src ∧ PtInRect src.FrameCoordinates x y = true)
        then some 0
        else (ScreenCaptureManager.GetCaptureDataForRect.loop x y 0 rest).map (fun i => i + 1) := by
  conv_lhs => unfold ScreenCaptureManager.GetCaptureDataForRect.loop
  rw [GetCaptureDataForRect_loop_shift x y (0 + 1) rest]
  cases h : d.RecordingSource with
  | none => simp
  | some src =>
    dsimp only
    by_cases hp : PtInRect src.FrameCoordinates x y = true
    · simp [hp]
    · simp [hp]

theorem GetCaptureDataForRect_loop_none (x y : Int) (l : List CAPTURE_THREAD_DATA) :
    ScreenCaptureManager.GetCaptureDataForRect.loop x y 0 l = none
      ↔ ∀ d ∈ l, ∀ src, d.RecordingSource = some src →
          PtInRect src.FrameCoordinates x y = false := by
  induction l with
  | nil => simp [ScreenCaptureManager.GetCaptureDataForRect.loop]
  | cons d rest ih =>
    rw [GetCaptureDataForRect_loop_cons]
    by_cases h : ∃ src, d.RecordingSource = some src ∧ PtInRect src.FrameCoordinates x y = true
    · rw [if_pos h]
      obtain ⟨src, h1, h2⟩ := h
      constructor
      · intro e
        exact absurd e (by simp)
      · intro hall
        have := hall d (List.mem_cons_self _ _) src h1
        rw [h2] at this
        exact absurd this (by simp)
    · rw [if_neg h, Option.map_eq_none', ih]
      constructor
      · intro hall e he src hsrc
        rcases List.mem_cons.1 he with rfl | he
        · by_contra hc
          exact h ⟨src, hsrc, by simpa using hc⟩
        · exact hall e he src hsrc
      · intro hall e he
        exact hall e (List.mem_cons_of_mem _ he)

theorem GetCaptureDataForRect_loop_some (x y : Int) (l : List CAPTURE_THREAD_DATA) (i : Nat)
    (h : ScreenCaptureManager.GetCaptureDataForRect.loop x y 0 l = some i) :
    (∃ d src, l[i]? = some d ∧ d.RecordingSource = some src
        ∧ PtInRect src.FrameCoordinates x y = true)
      ∧ ∀ j, j < i → ∀ d src, l[j]? = some d → d.RecordingSource = some src →
          PtInRect src.FrameCoordinates x y = false := by
  induction l generalizing i with
  | nil => simp [ScreenCaptureManager.GetCaptureDataForRect.loop] at h
  | cons d rest ih =>
    rw [GetCaptureDataForRect_loop_cons] at h
    by_cases hd : ∃ src, d.RecordingSource = some src ∧ PtInRect src.FrameCoordinates x y = true
    · rw [if_pos hd] at h
      cases Option.some.inj h
      obtain ⟨src, h1, h2⟩ := hd
      exact ⟨⟨d, src, by simp, h1, h2⟩, fun j hj => absurd hj (Nat.not_lt_zero j)⟩
    · rw [if_neg hd] at h
      rw [Option.map_eq_some'] at h
      obtain ⟨k, hk, rfl⟩ := h
      obtain ⟨⟨e, src, he, hsrc, hp⟩, hlow⟩ := ih k hk
      refine ⟨⟨e, src, by simpa using he, hsrc, hp⟩, ?_⟩
      intro j hj e2 src2 he2 hsrc2
      cases j with
      | zero =>
        simp at he2
        subst he2
        by_contra hc
        exact hd ⟨src2, hsrc2, by simpa using hc⟩
      | succ j =>
        simp at he2
        exact hlow j (by omega) e2 src2 he2 hsrc2

/-- Claim C8. `GetCaptureDataForRect(rect)` returns `nullptr` exactly when no
visited element that carries a source record has a `FrameCoordinates`
rectangle containing the point `(rect.left, rect.top)`, with the left and top
edges inside and the right and bottom edges outside. Otherwise it returns the
element of lowest index that carries a source record whose rectangle contains
the point. -/
theorem C8_GetCaptureDataForRect_first_containing (s : ScreenCaptureManager) (rect : RECT) :
    (s.GetCaptureDataForRect rect = none ↔
      ∀ d ∈ s.threadData, ∀ src, d.RecordingSource = some src →
        ¬ (src.FrameCoordinates.left ≤ rect.left ∧ rect.left < src.FrameCoordinates.right
            ∧ src.FrameCoordinates.top ≤ rect.top ∧ rect.top < src.FrameCoordinates.bottom))
    ∧ (∀ i, s.GetCaptureDataForRect rect = some i →
        (∃ d src, s.threadData[i]? = some d ∧ d.RecordingSource = some src
          ∧ src.FrameCoordinates.left ≤ rect.left ∧ rect.left < src.FrameCoordinates.right
          ∧ src.FrameCoordinates.top ≤ rect.top ∧ rect.top < src.FrameCoordinates.bottom)
        ∧ ∀ j, j < i → ∀ d src, s.threadData[j]? = some d → d.RecordingSource = some src →
            ¬ (src.FrameCoordinates.left ≤ rect.left ∧ rect.left < src.FrameCoordinates.right
                ∧ src.FrameCoordinates.top ≤ rect.top
                ∧ rect.top < src.FrameCoordinates.bottom)) := by
  unfold ScreenCaptureManager.GetCaptureDataForRect
  constructor
  · rw [GetCaptureDataForRect_loop_none]
    constructor
    · intro h d hd src hsrc hc
      have := h d hd src hsrc
      rw [(PtInRect_iff _ _ _).2 hc] at this
      exact Bool.noConfusion this
    · intro h d hd src hsrc
      have := h d hd src hsrc
      rw [← PtInRect_iff] at this
      simpa using this
  · intro i hi
    obtain ⟨⟨d, src, hd, hsrc, hp⟩, hlow⟩ := GetCaptureDataForRect_loop_some _ _ _ i hi
    refine ⟨⟨d, src, hd, hsrc, (PtInRect_iff _ _ _).1 hp⟩, ?_⟩
    intro j hj e src2 he hsrc2 hc
    have := hlow j hj e src2 he hsrc2
    rw [(PtInRect_iff _ _ _).2 hc] at this
    exact Bool.noConfusion this

/-- Claim C8 at a manager with two elements, the first without a source record
and the second covering `(0,0)-(100,100)`: the point `(5,5)` is found in the
second element. -/
theorem C8_GetCaptureDataForRect_first_containing_witness :
    ∃ d src, lookupManager.threadData[1]? = some d ∧ d.RecordingSource = some src
      ∧ src.FrameCoordinates.left ≤ 5 ∧ 5 < src.FrameCoordinates.right
      ∧ src.FrameCoordinates.top ≤ 5 ∧ 5 < src.FrameCoordinates.bottom :=
  ((C8_GetCaptureDataForRect_first_containing lookupManager ⟨5, 5, 9, 9⟩).2 1 (by decide)).1

/-! ## Worker initialisation -/

/-- When a backend is constructed and one of the four initialisation calls
fails, `CaptureThreadProc` leaves without entering its loop and stores the
failing code. -/
theorem CaptureThreadProc_init_call_failure (pData : CAPTURE_THREAD_DATA)
    (pSource : RECORDING_SOURCE_DATA) (env : WorkerInitEnv) (script : List LoopIteration)
    (hb : createRecordingSource pSource env.PictureIsGif ≠ none)
    (hf : FAILED env.OpenSharedResource = true ∨ FAILED env.QueryInterfaceKeyedMutex = true
      ∨ FAILED env.InitializeBackend = true ∨ FAILED env.StartCaptureBackend = true) :
    ∃ r, CaptureThreadProc pData pSource env script = some r
      ∧ r.EnteredCaptureLoop = false ∧ FAILED r.Data.ThreadResult = true := by
  unfold CaptureThreadProc
  dsimp only
  cases hc : createRecordingSource pSource env.PictureIsGif with
  | none => exact absurd hc hb
  | some b =>
    dsimp only
    by_cases h1 : FAILED env.OpenSharedResource = true
    · exact ⟨_, by rw [if_pos h1], rfl, by rw [(workerExit_events _ _ _).1]; exact h1⟩
    · rw [if_neg h1]
      by_cases h2 : FAILED env.QueryInterfaceKeyedMutex = true
      · exact ⟨_, by rw [if_pos h2], rfl, by rw [(workerExit_events _ _ _).1]; exact h2⟩
      · rw [if_neg h2]
        by_cases h3 : FAILED env.InitializeBackend = true
        · exact ⟨_, by rw [if_pos h3], rfl, by rw [(workerExit_events _ _ _).1]; exact h3⟩
        · rw [if_neg h3]
          by_cases h4 : FAILED env.StartCaptureBackend = true
          · exact ⟨_, by rw [if_pos h4], rfl, by rw [(workerExit_events _ _ _).1]; exact h4⟩
          · rcases hf with h | h | h | h
            · exact absurd h h1
            · exact absurd h h2
            · exact absurd h h3
            · exact absurd h h4

/-- Claim C9 on the code: when no backend is constructed, because a display
source carries an API hint equal to neither enumerator or the source kind
reaches the `default:` label, `CaptureThreadProc` leaves without entering its
loop, stores `S_OK`, which is not a failure code, in `ThreadResult`, and sets
neither event. -/
theorem C9_no_backend_stores_S_OK (pData : CAPTURE_THREAD_DATA)
    (pSource : RECORDING_SOURCE_DATA) (env : WorkerInitEnv) (script : List LoopIteration)
    (h : (pSource.Type_ = RecordingSourceType.Display
          ∧ pSource.SourceApi = RecordingSourceApi.Other)
        ∨ pSource.Type_ = RecordingSourceType.Other) :
    createRecordingSource pSource env.PictureIsGif = none
      ∧ CaptureThreadProc pData pSource env script
          = some { EnteredCaptureLoop := false
                   Data := { pData with ThreadResult := S_OK }
                   ExpectedErrorEventSet := false
                   UnexpectedErrorEventSet := false }
      ∧ FAILED S_OK = false := by
  have hc : createRecordingSource pSource env.PictureIsGif = none := by
    unfold createRecordingSource
    rcases h with ⟨h1, h2⟩ | h1
    · simp [h1, h2]
    · simp [h1]
  refine ⟨hc, ?_, by decide⟩
  unfold CaptureThreadProc
  dsimp only
  rw [hc]
  rfl

/-- Claim C9 on the code, at a display source without a usable API hint. -/
theorem C9_no_backend_stores_S_OK_witness :
    createRecordingSource displaySourceWithoutApi workerInitOk.PictureIsGif = none
      ∧ CaptureThreadProc ⟨some displaySourceWithoutApi, 0, 0, 0, E_FAIL⟩
          displaySourceWithoutApi workerInitOk []
          = some { EnteredCaptureLoop := false
                   Data := ⟨some displaySourceWithoutApi, 0, 0, 0, S_OK⟩
                   ExpectedErrorEventSet := false
                   UnexpectedErrorEventSet := false }
      ∧ FAILED S_OK = false :=
  C9_no_backend_stores_S_OK ⟨some displaySourceWithoutApi, 0, 0, 0, E_FAIL⟩
    displaySourceWithoutApi workerInitOk [] (Or.inl ⟨rfl, rfl⟩)

/-! ## Shared surface creation -/

/-- Whenever `CreateSharedSurf` gets past source resolution and returns, the
caller's rectangle holds what `GetCombinedRects` left in it, and the result
of `MakeRectEven` is used only to size the texture. -/
theorem CreateSharedSurf_DeskBounds (s : ScreenCaptureManager) (env : GeometryEnv)
    (sources : List RECORDING_SOURCE) (deskBoundsIn : RECT) (r : CreateSharedSurfResult)
    (hok : FAILED (env.GetOutputRectsForRecordingSources sources).1 = false)
    (h : s.CreateSharedSurf env sources deskBoundsIn = some r) :
    r.DeskBounds
        = (env.GetCombinedRects
            ((env.GetOutputRectsForRecordingSources sources).2.map Prod.snd) deskBoundsIn).1
      ∧ r.SurfaceRect = some (env.MakeRectEven r.DeskBounds) := by
  unfold ScreenCaptureManager.CreateSharedSurf at h
  dsimp only at h
  rw [hok] at h
  simp only [Bool.false_eq_true, if_false] at h
  split at h
  · exact absurd h (by simp)
  · cases Option.some.inj h
    exact ⟨rfl, rfl⟩

/-- Claim C10 on the code, for one display source that resolves to the
rectangle `(0,0)-(101,101)`: `CreateSharedSurf` leaves `(0,0)-(101,101)`, of
odd width and height, in the caller's rectangle, which `StartCapture` passes
as `m_OutputRect`, although `MakeRectEven` returned the even rectangle
`(0,0)-(100,100)` from which the shared texture was sized. -/
theorem C10_output_rect_keeps_odd_extent :
    ((ScreenCaptureManager.new 7).CreateSharedSurf oddGeometry [displayDescriptor]
        ⟨0, 0, 0, 0⟩).map (fun r => (r.hr, r.DeskBounds, r.SurfaceRect))
      = some (S_OK, ⟨0, 0, 101, 101⟩, some ⟨0, 0, 100, 100⟩)
    ∧ ((ScreenCaptureManager.new 7).StartCapture oddStart [displayDescriptor]).map
        (fun r => (r.1, r.2.m_OutputRect, r.2.m_SharedSurf))
      = some (S_OK, ⟨0, 0, 101, 101⟩, some ⟨100, 100⟩)
    ∧ RectWidth ⟨0, 0, 101, 101⟩ % 2 = 1
    ∧ RectHeight ⟨0, 0, 101, 101⟩ % 2 = 1
    ∧ RectWidth (oddGeometry.MakeRectEven ⟨0, 0, 101, 101⟩) % 2 = 0
    ∧ RectHeight (oddGeometry.MakeRectEven ⟨0, 0, 101, 101⟩) % 2 = 0 := by
  refine ⟨by decide, by decide, by decide, by decide, by decide, by decide⟩

/-! ## Sessions without a failed acquisition -/

theorem wrapInt32_of_range (x : Int) (h0 : 0 ≤ x) (h1 : x < 0x80000000) : wrapInt32 x = x := by
  unfold wrapInt32
  omega

theorem pendingFrames_cons (d : CAPTURE_THREAD_DATA) (l : List CAPTURE_THREAD_DATA) :
    pendingFrames (d :: l) = d.UpdatedFrameCountSinceLastWrite + pendingFrames l := by
  simp [pendingFrames]

theorem pendingFrames_nonneg (l : List CAPTURE_THREAD_DATA)
    (h : ∀ d ∈ l, 0 ≤ d.UpdatedFrameCountSinceLastWrite) : 0 ≤ pendingFrames l := by
  induction l with
  | nil => simp [pendingFrames]
  | cons d rest ih =>
    rw [pendingFrames_cons]
    have h1 := h d (List.mem_cons_self _ _)
    have h2 := ih (fun e he => h e (List.mem_cons_of_mem _ he))
    omega

/-- The elements as `GetUpdatedFrameCount(true)` leaves them. -/
theorem GetUpdatedFrameCount_loop_data (last : Int) (acc : Int) (l : List CAPTURE_THREAD_DATA) :
    (ScreenCaptureManager.GetUpdatedFrameCount.loop last true acc l).2
      = l.map (fun d => if d.LastUpdateTimeStamp > last
          then { d with UpdatedFrameCountSinceLastWrite := 0 } else d) := by
  induction l generalizing acc with
  | nil => simp [ScreenCaptureManager.GetUpdatedFrameCount.loop]
  | cons d rest ih =>
    unfold ScreenCaptureManager.GetUpdatedFrameCount.loop
    by_cases h : d.LastUpdateTimeStamp > last
    · simp [h, ih]
    · simp [h, ih]

/-- Without overflow the count returned is the running count plus the pending
frames of the sources whose timestamp is newer. -/
theorem GetUpdatedFrameCount_loop_count (last : Int) (b : Bool) (acc : Int)
    (l : List CAPTURE_THREAD_DATA)
    (hacc : 0 ≤ acc) (hnn : ∀ d ∈ l, 0 ≤ d.UpdatedFrameCountSinceLastWrite)
    (hb : acc + pendingFrames l < 0x80000000) :
    acc ≤ (ScreenCaptureManager.GetUpdatedFrameCount.loop last b acc l).1
      ∧ ((∃ d ∈ l, d.LastUpdateTimeStamp > last ∧ 0 < d.UpdatedFrameCountSinceLastWrite) →
          acc < (ScreenCaptureManager.GetUpdatedFrameCount.loop last b acc l).1) := by
  induction l generalizing acc with
  | nil => simp [ScreenCaptureManager.GetUpdatedFrameCount.loop]
  | cons d rest ih =>
    have hd := hnn d (List.mem_cons_self _ _)
    have hrest : ∀ e ∈ rest, 0 ≤ e.UpdatedFrameCountSinceLastWrite :=
      fun e he => hnn e (List.mem_cons_of_mem _ he)
    have hsum := pendingFrames_nonneg rest hrest
    rw [pendingFrames_cons] at hb
    unfold ScreenCaptureManager.GetUpdatedFrameCount.loop
    by_cases h : d.LastUpdateTimeStamp > last
    · simp only [h, if_true]
      have hw : wrapInt32 (acc + d.UpdatedFrameCountSinceLastWrite)
          = acc + d.UpdatedFrameCountSinceLastWrite :=
        wrapInt32_of_range _ (by omega) (by omega)
      rw [hw]
      obtain ⟨i1, i2⟩ := ih (acc + d.UpdatedFrameCountSinceLastWrite) (by omega) hrest (by omega)
      constructor
      · omega
      · rintro ⟨e, he, hts, hpos⟩
        rcases List.mem_cons.1 he with rfl | he
        · omega
        · have := i2 ⟨e, he, hts, hpos⟩
          omega
    · simp only [h, if_false]
      obtain ⟨i1, i2⟩ := ih acc hacc hrest (by omega)
      constructor
      · exact i1
      · rintro ⟨e, he, hts, hpos⟩
        rcases List.mem_cons.1 he with rfl | he
        · exact absurd hts h
        · exact i2 ⟨e, he, hts, hpos⟩

theorem threadData_setThreadData (s : ScreenCaptureManager) (ds : List CAPTURE_THREAD_DATA)
    (h : ds.length = s.threadData.length) : (s.setThreadData ds).threadData = ds := by
  unfold ScreenCaptureManager.setThreadData ScreenCaptureManager.threadData at *
  cases hd : s.m_CaptureThreadData with
  | none =>
    simp [hd] at h ⊢
    exact h
  | some arr =>
    simp only [hd, Option.map_some', Option.getD_some, List.length_take] at h ⊢
    rw [List.take_append_eq_append_take]
    by_cases hc : s.m_CaptureThreadCount ≤ arr.length
    · have : ds.length = s.m_CaptureThreadCount := by omega
      simp [this]
    · have h1 : ds.length = arr.length := by omega
      have h2 : arr.drop s.m_CaptureThreadCount = [] := List.drop_eq_nil_of_le (by omega)
      rw [h2]
      simp
      omega

/-- A loop pass that obtains the backend frame and the lock and writes a
frame continues with the thread data `frameWritten` describes, which is the
step a `WorkerWrite` event applies to the manager's copy. -/
theorem captureLoop_frame_written (w : Bool) (d : CAPTURE_THREAD_DATA) (it : LoopIteration)
    (script : List LoopIteration)
    (hterm : it.TerminateSignalled = false)
    (hacq : it.AcquireNextFrame = S_OK) (hsync : it.AcquireSync = S_OK)
    (hwrite : it.WriteNextFrameToSharedSurface = S_OK) :
    captureLoop w d (it :: script)
      = captureLoop false (d.frameWritten it.PerformanceCounter) script := by
  have e1 : S_OK ≠ DXGI_ERROR_WAIT_TIMEOUT := by decide
  have e2 : FAILED S_OK = false := by decide
  have e3 : S_OK ≠ WAIT_TIMEOUT := by decide
  have e4 : S_OK ≠ S_FALSE := by decide
  rw [captureLoop]
  simp [hterm, hacq, hsync, hwrite, e1, e2, e3, e4]

theorem updateAt_length {α : Type} (f : α → α) (i : Nat) (l : List α) :
    (updateAt f i l).length = l.length := by
  induction l generalizing i with
  | nil => simp [updateAt]
  | cons a rest ih =>
    cases i with
    | zero => simp [updateAt]
    | succ i => simp [updateAt, ih]

theorem updateAt_take {α : Type} (f : α → α) (i n : Nat) (l : List α) :
    (updateAt f i l).take n = if i < n then updateAt f i (l.take n) else l.take n := by
  induction l generalizing i n with
  | nil => simp [updateAt]
  | cons a rest ih =>
    cases n with
    | zero => simp
    | succ n =>
      cases i with
      | zero => simp [updateAt]
      | succ i =>
        simp only [updateAt, List.take_succ_cons, ih i n]
        by_cases h : i < n
        · simp [h]
        · simp [h]

theorem mem_updateAt {α : Type} (f : α → α) (i : Nat) (l : List α) (b : α)
    (h : b ∈ updateAt f i l) : b ∈ l ∨ ∃ a ∈ l, b = f a := by
  induction l generalizing i with
  | nil => simp [updateAt] at h
  | cons a rest ih =>
    cases i with
    | zero =>
      simp only [updateAt, List.mem_cons] at h
      rcases h with rfl | h
      · exact Or.inr ⟨a, List.mem_cons_self _ _, rfl⟩
      · exact Or.inl (List.mem_cons_of_mem _ h)
    | succ i =>
      simp only [updateAt, List.mem_cons] at h
      rcases h with rfl | h
      · exact Or.inl (List.mem_cons_self _ _)
      · rcases ih i h with h1 | ⟨c, hc, rfl⟩
        · exact Or.inl (List.mem_cons_of_mem _ h1)
        · exact Or.inr ⟨c, List.mem_cons_of_mem _ hc, rfl⟩

theorem pendingFrames_updateAt (now : Int) (i : Nat) (l : List CAPTURE_THREAD_DATA) :
    pendingFrames (updateAt (fun d => d.frameWritten now) i l) ≤ pendingFrames l + 1 := by
  induction l generalizing i with
  | nil => simp [updateAt, pendingFrames]
  | cons a rest ih =>
    cases i with
    | zero =>
      simp only [updateAt, pendingFrames_cons, CAPTURE_THREAD_DATA.frameWritten]
      omega
    | succ i =>
      simp only [updateAt, pendingFrames_cons]
      have := ih i
      omega

theorem threadData_workerWrite (s : ScreenCaptureManager) (i : Nat) (now : Int) :
    (workerWrite s i now).threadData = s.threadData
      ∨ (workerWrite s i now).threadData
          = updateAt (fun d => d.frameWritten now) i s.threadData := by
  unfold workerWrite ScreenCaptureManager.threadData
  cases hd : s.m_CaptureThreadData with
  | none => simp
  | some arr =>
    simp only [Option.map_some', Option.getD_some]
    rw [updateAt_take]
    by_cases h : i < s.m_CaptureThreadCount
    · simp [h]
    · simp [h]

/-- A worker write keeps the bookkeeping relation, at the time of the write
and with one more pending frame allowed. -/
theorem Bookkeeping_workerWrite (s : ScreenCaptureManager) (c : Int) (n : Nat) (i : Nat)
    (now : Int) (h : Bookkeeping s c n) (hc : c ≤ now) :
    Bookkeeping (workerWrite s i now) now (n + 1) := by
  have hlast : (workerWrite s i now).m_LastAcquiredFrameTimeStamp
      = s.m_LastAcquiredFrameTimeStamp := rfl
  rcases threadData_workerWrite s i now with e | e
  · refine ⟨?_, ?_, ?_, ?_, ?_⟩
    · intro d hd
      rw [e] at hd
      have := h.stamps d hd
      omega
    · rw [hlast]
      have := h.acquired
      omega
    · intro d hd
      rw [e] at hd
      exact h.nonneg d hd
    · rw [e]
      have := h.bounded
      push_cast
      omega
    · intro d hd
      rw [e] at hd
      rw [hlast]
      exact h.pending d hd
  · refine ⟨?_, ?_, ?_, ?_, ?_⟩
    · intro d hd
      rw [e] at hd
      rcases mem_updateAt _ _ _ _ hd with h1 | ⟨a, ha, rfl⟩
      · have := h.stamps d h1
        omega
      · simp [CAPTURE_THREAD_DATA.frameWritten]
    · rw [hlast]
      have := h.acquired
      omega
    · intro d hd
      rw [e] at hd
      rcases mem_updateAt _ _ _ _ hd with h1 | ⟨a, ha, rfl⟩
      · exact h.nonneg d h1
      · have := h.nonneg a ha
        simp only [CAPTURE_THREAD_DATA.frameWritten]
        omega
    · rw [e]
      have := h.bounded
      have := pendingFrames_updateAt now i s.threadData
      push_cast
      omega
    · intro d hd hts
      rw [e] at hd
      rw [hlast] at hts
      rcases mem_updateAt _ _ _ _ hd with h1 | ⟨a, ha, rfl⟩
      · exact h.pending d h1 hts
      · have := h.nonneg a ha
        simp only [CAPTURE_THREAD_DATA.frameWritten]
        omega

theorem threadData_GetUpdatedFrameCount (s : ScreenCaptureManager) :
    (s.GetUpdatedFrameCount true).2.threadData
      = s.threadData.map (fun d =>
          if d.LastUpdateTimeStamp > s.m_LastAcquiredFrameTimeStamp
          then { d with UpdatedFrameCountSinceLastWrite := 0 } else d) := by
  unfold ScreenCaptureManager.GetUpdatedFrameCount
  dsimp only
  rw [threadData_setThreadData]
  · exact GetUpdatedFrameCount_loop_data _ _ _
  · rw [GetUpdatedFrameCount_loop_data, List.length_map]

theorem pendingFrames_reset_le (last : Int) (l : List CAPTURE_THREAD_DATA)
    (h : ∀ d ∈ l, 0 ≤ d.UpdatedFrameCountSinceLastWrite) :
    pendingFrames (l.map (fun d =>
        if d.LastUpdateTimeStamp > last
        then { d with UpdatedFrameCountSinceLastWrite := 0 } else d)) ≤ pendingFrames l := by
  induction l with
  | nil => simp
  | cons d rest ih =>
    rw [List.map_cons, pendingFrames_cons, pendingFrames_cons]
    have h1 := h d (List.mem_cons_self _ _)
    have h2 := ih (fun e he => h e (List.mem_cons_of_mem _ he))
    by_cases hts : d.LastUpdateTimeStamp > last
    · simp only [hts, if_true]
      omega
    · simp only [hts, if_false]
      omega

theorem Bookkeeping_mono (s : ScreenCaptureManager) (c : Int) (n m : Nat)
    (h : Bookkeeping s c n) (hnm : n ≤ m) : Bookkeeping s c m :=
  ⟨h.stamps, h.acquired, h.nonneg, by have := h.bounded; omega, h.pending⟩

theorem Bookkeeping_clock (s : ScreenCaptureManager) (c c2 : Int) (n : Nat)
    (h : Bookkeeping s c n) (hc : c ≤ c2) : Bookkeeping s c2 n :=
  ⟨fun d hd => by have := h.stamps d hd; omega, by have := h.acquired; omega, h.nonneg,
    h.bounded, h.pending⟩

/-- An `AcquireNextFrame` call in which texture creation does not fail keeps
the bookkeeping relation, and when it returns a frame no source timestamp is
newer than the last acquired timestamp afterwards. -/
theorem Bookkeeping_AcquireNextFrame (s : ScreenCaptureManager) (c : Int) (n : Nat)
    (env : AcquireEnv) (t : Nat) (h : Bookkeeping s c n) (hc : c ≤ env.PerformanceCounter)
    (htex : FAILED env.CreateTexture2D = false) (hn : (n : Int) < 0x80000000) :
    Bookkeeping (s.AcquireNextFrame env t).state env.PerformanceCounter n
      ∧ ((s.AcquireNextFrame env t).frame.isSome = true →
          ∀ d ∈ (s.AcquireNextFrame env t).state.threadData,
            d.LastUpdateTimeStamp
              ≤ (s.AcquireNextFrame env t).state.m_LastAcquiredFrameTimeStamp) := by
  have hkeep := Bookkeeping_clock s c env.PerformanceCounter n h hc
  have hdata := threadData_GetUpdatedFrameCount s
  have hcount := GetUpdatedFrameCount_loop_count s.m_LastAcquiredFrameTimeStamp true 0
    s.threadData (le_refl 0) h.nonneg (by have := h.bounded; omega)
  have hcnt : (s.GetUpdatedFrameCount true).1
      = (ScreenCaptureManager.GetUpdatedFrameCount.loop s.m_LastAcquiredFrameTimeStamp true 0
          s.threadData).1 := rfl
  rw [← hcnt] at hcount
  -- the elements after the reset, one by one
  have hmem : ∀ d ∈ (s.GetUpdatedFrameCount true).2.threadData,
      ∃ a ∈ s.threadData, d.LastUpdateTimeStamp = a.LastUpdateTimeStamp
        ∧ ((a.LastUpdateTimeStamp > s.m_LastAcquiredFrameTimeStamp
            ∧ d.UpdatedFrameCountSinceLastWrite = 0)
          ∨ (¬ a.LastUpdateTimeStamp > s.m_LastAcquiredFrameTimeStamp ∧ d = a)) := by
    intro d hd
    rw [hdata, List.mem_map] at hd
    obtain ⟨a, ha, rfl⟩ := hd
    refine ⟨a, ha, ?_, ?_⟩
    · split_ifs <;> rfl
    · by_cases hts : a.LastUpdateTimeStamp > s.m_LastAcquiredFrameTimeStamp
      · exact Or.inl ⟨hts, by simp [hts]⟩
      · exact Or.inr ⟨hts, by simp [hts]⟩
  unfold ScreenCaptureManager.AcquireNextFrame
  dsimp only
  split_ifs with h1 h2 h3 h4 h5
  · exact ⟨hkeep, by simp⟩
  · exact ⟨hkeep, by simp⟩
  · exact ⟨hkeep, by simp⟩
  · rw [htex] at h4
    exact absurd h4 (by simp)
  · -- a frame that counts an update: the timestamp becomes the counter value
    refine ⟨⟨?_, le_refl _, ?_, ?_, ?_⟩, ?_⟩
    · intro d hd
      obtain ⟨a, ha, e, _⟩ := hmem d hd
      have := h.stamps a ha
      rw [e]
      omega
    · intro d hd
      obtain ⟨a, ha, _, hcase⟩ := hmem d hd
      rcases hcase with ⟨_, e0⟩ | ⟨_, rfl⟩
      · omega
      · exact h.nonneg d ha
    · have e : (({ (s.GetUpdatedFrameCount true).2 with
          m_LastAcquiredFrameTimeStamp := env.PerformanceCounter } :
            ScreenCaptureManager).threadData) = (s.GetUpdatedFrameCount true).2.threadData := rfl
      rw [e, hdata]
      have := pendingFrames_reset_le s.m_LastAcquiredFrameTimeStamp s.threadData h.nonneg
      have := h.bounded
      omega
    · intro d hd hts
      obtain ⟨a, ha, e, _⟩ := hmem d hd
      have := h.stamps a ha
      have hts2 : d.LastUpdateTimeStamp > env.PerformanceCounter := hts
      omega
    · intro _ d hd
      obtain ⟨a, ha, e, _⟩ := hmem d hd
      have := h.stamps a ha
      show d.LastUpdateTimeStamp ≤ env.PerformanceCounter
      omega
  · -- a frame that counts no update: no source had a newer timestamp
    have hzero : (s.GetUpdatedFrameCount true).1 ≤ 0 := by
      by_contra hne
      exact h5 (Or.inl (by omega))
    have hnone : ∀ a ∈ s.threadData,
        ¬ a.LastUpdateTimeStamp > s.m_LastAcquiredFrameTimeStamp := by
      intro a ha hts
      have := hcount.2 ⟨a, ha, hts, h.pending a ha hts⟩
      omega
    have hsame : ∀ d ∈ (s.GetUpdatedFrameCount true).2.threadData, d ∈ s.threadData := by
      intro d hd
      obtain ⟨a, ha, _, hcase⟩ := hmem d hd
      rcases hcase with ⟨hts, _⟩ | ⟨_, rfl⟩
      · exact absurd hts (hnone a ha)
      · exact ha
    refine ⟨⟨?_, ?_, ?_, ?_, ?_⟩, ?_⟩
    · intro d hd
      exact hkeep.stamps d (hsame d hd)
    · exact hkeep.acquired
    · intro d hd
      exact h.nonneg d (hsame d hd)
    · rw [hdata]
      have := pendingFrames_reset_le s.m_LastAcquiredFrameTimeStamp s.threadData h.nonneg
      have := h.bounded
      omega
    · intro d hd hts
      exact absurd hts (hnone d (hsame d hd))
    · intro _ d hd
      have := hnone d (hsame d hd)
      show d.LastUpdateTimeStamp ≤ s.m_LastAcquiredFrameTimeStamp
      omega

/-- When no source timestamp is newer than the last acquired timestamp and
the overlay manager reports no update, a call that obtains the lock returns
`DXGI_ERROR_WAIT_TIMEOUT` and leaves the manager as it was. -/
theorem AcquireNextFrame_nothing_new (s : ScreenCaptureManager) (env : AcquireEnv) (t : Nat)
    (hold : ∀ d ∈ s.threadData, d.LastUpdateTimeStamp ≤ s.m_LastAcquiredFrameTimeStamp)
    (hover : env.OverlayUpdatedFramesAvailable = false)
    (h1 : env.AcquireSync 1 t ≠ WAIT_TIMEOUT) (h2 : FAILED (env.AcquireSync 1 t) = false) :
    (s.AcquireNextFrame env t).hr = DXGI_ERROR_WAIT_TIMEOUT
      ∧ (s.AcquireNextFrame env t).frame = none
      ∧ (s.AcquireNextFrame env t).state = s := by
  have hu : s.IsUpdatedFramesAvailable = false := by
    cases hb : s.IsUpdatedFramesAvailable with
    | false => rfl
    | true =>
      obtain ⟨d, hd, hts⟩ := (IsUpdatedFramesAvailable_loop_iff _ _).1 hb
      have := hold d hd
      omega
  unfold ScreenCaptureManager.AcquireNextFrame
  dsimp only
  simp [h1, h2, hu, hover]

/-- One event in which texture creation does not fail keeps the bookkeeping
relation, at the time of the event and with one more pending frame allowed. -/
theorem Bookkeeping_event (s : ScreenCaptureManager) (c : Int) (n : Nat) (e : SessionEvent)
    (h : Bookkeeping s c n) (hc : c ≤ e.time) (htex : e.textureCreated = true)
    (hn : (n : Int) < 0x80000000) :
    Bookkeeping (runSession s [e]).1 e.time (n + 1) := by
  cases e with
  | WorkerWrite i now => exact Bookkeeping_workerWrite s c n i now h hc
  | Acquire env t =>
    have htex2 : FAILED env.CreateTexture2D = false := by
      simpa [SessionEvent.textureCreated] using htex
    exact Bookkeeping_mono _ _ n (n + 1)
      (Bookkeeping_AcquireNextFrame s c n env t h hc htex2 hn).1 (Nat.le_succ n)

theorem runSession_cons (s : ScreenCaptureManager) (e : SessionEvent)
    (rest : List SessionEvent) :
    (runSession s (e :: rest)).1 = (runSession (runSession s [e]).1 rest).1 := by
  cases e <;> simp [runSession]

/-- In a session in which no texture creation fails and fewer than `2^31`
events happen, after an `AcquireNextFrame` call that returned a frame, the
next call, made with no write and no overlay update in between, returns
`DXGI_ERROR_WAIT_TIMEOUT` when it obtains the lock and leaves the manager,
its last acquired timestamp included, unchanged. -/
theorem acquire_after_frame_without_failure (evs : List SessionEvent) :
    ∀ (s : ScreenCaptureManager) (c : Int) (n : Nat) (env1 env2 : AcquireEnv) (t1 t2 : Nat),
      Bookkeeping s c n →
      monotoneFrom c (evs ++ [SessionEvent.Acquire env1 t1]) →
      (∀ e ∈ evs ++ [SessionEvent.Acquire env1 t1], e.textureCreated = true) →
      ((n + evs.length : Nat) : Int) < 0x80000000 →
      ((runSession s evs).1.AcquireNextFrame env1 t1).frame.isSome = true →
      env2.OverlayUpdatedFramesAvailable = false →
      env2.AcquireSync 1 t2 ≠ WAIT_TIMEOUT →
      FAILED (env2.AcquireSync 1 t2) = false →
      (((runSession s evs).1.AcquireNextFrame env1 t1).state.AcquireNextFrame env2 t2).hr
          = DXGI_ERROR_WAIT_TIMEOUT
        ∧ (((runSession s evs).1.AcquireNextFrame env1 t1).state.AcquireNextFrame env2 t2).state
          = ((runSession s evs).1.AcquireNextFrame env1 t1).state := by
  induction evs with
  | nil =>
    intro s c n env1 env2 t1 t2 hinv hmono hclean hb hframe hover h1 h2
    have hc : c ≤ env1.PerformanceCounter := hmono.1
    have htex : FAILED env1.CreateTexture2D = false := by
      have := hclean (SessionEvent.Acquire env1 t1) (by simp)
      simpa [SessionEvent.textureCreated] using this
    have hn : (n : Int) < 0x80000000 := by simpa using hb
    have hold := (Bookkeeping_AcquireNextFrame s c n env1 t1 hinv hc htex hn).2 hframe
    have hres := AcquireNextFrame_nothing_new _ env2 t2 hold hover h1 h2
    exact ⟨hres.1, hres.2.2⟩
  | cons e rest ih =>
    intro s c n env1 env2 t1 t2 hinv hmono hclean hb hframe hover h1 h2
    rw [runSession_cons] at hframe ⊢
    have hc : c ≤ e.time := hmono.1
    have hmono2 : monotoneFrom e.time (rest ++ [SessionEvent.Acquire env1 t1]) := hmono.2
    have htex : e.textureCreated = true := hclean e (by simp)
    have hlen : (((n + (e :: rest).length : Nat) : Int)) = ((n + 1 + rest.length : Nat) : Int) := by
      simp only [List.length_cons]
      congr 1
      omega
    rw [hlen] at hb
    have hn : (n : Int) < 0x80000000 := by
      push_cast at hb
      omega
    have hstep := Bookkeeping_event s c n e hinv hc htex hn
    exact ih (runSession s [e]).1 e.time (n + 1) env1 env2 t1 t2 hstep hmono2
      (fun x hx => hclean x (by
        rcases List.mem_append.1 hx with h | h
        · exact List.mem_append.2 (Or.inl (List.mem_cons_of_mem _ h))
        · exact List.mem_append.2 (Or.inr h)))
      hb hframe hover h1 h2

theorem Bookkeeping_startedSession : Bookkeeping startedSession 0 0 := by
  refine ⟨?_, ?_, ?_, ?_, ?_⟩ <;> decide

/-- The session of one write at time 10 followed by a successful acquisition
at time 20: the next call, at time 30 with nothing new, returns
`DXGI_ERROR_WAIT_TIMEOUT`. -/
theorem acquire_after_frame_without_failure_example :
    (((runSession startedSession [SessionEvent.WorkerWrite 0 10]).1.AcquireNextFrame
        (acquireEnv S_OK false S_OK 0 20) 50).state.AcquireNextFrame
        (acquireEnv S_OK false S_OK 0 30) 50).hr = DXGI_ERROR_WAIT_TIMEOUT :=
  (acquire_after_frame_without_failure [SessionEvent.WorkerWrite 0 10] startedSession 0 0
    (acquireEnv S_OK false S_OK 0 20) (acquireEnv S_OK false S_OK 0 30) 50 50
    Bookkeeping_startedSession (by simp [monotoneFrom, SessionEvent.time, acquireEnv])
    (by
      intro e he
      simp at he
      rcases he with rfl | rfl <;> decide)
    (by decide) (by decide) rfl (by decide) (by decide)).1

end ScreenRecorderLib
